import Mathlib

/-!
Verification of the Consultkit ASHRAE load-calculation engine
(`backend/ashrae_engine/calculator.py`, `models.py`, `results.py`) and the
geometry extractor (`backend/gem_ai/geometry_extractor.py`).

The Python code is embedded shallowly: Python floats become `ℚ` (all the
arithmetic under scrutiny is exact +, -, *, /, abs, max, min), dataclasses
become structures with the same field names and defaults, `Optional[T]`
becomes `Option T`, Python dicts keyed by strings become association lists
in insertion order, and a computation that can raise (`ZeroDivisionError`,
`ValueError`) returns `Option`/`Except`.  The trigonometric solar model
(`_get_solar_on_surface`, `_get_solar_intensity`) is the one transcendental
part of the calculator; it is abstracted as an oracle parameter
(`ℕ → Surface → DesignDay → ℚ` resp. `ℕ → DesignDay → ℚ`) threaded through
the embedding — every use of a solar value in cooling mode is clamped by
`max 0` before it enters a load component, so no claim below depends on the
oracle's values.  Fresh identifiers drawn from `uuid.uuid4()` are modelled
as an input stream `ℕ → String`.
-/

namespace Ashrae

/-- Physical constants from `calculator.py` (`CP_AIR = 1006.0` etc.). -/
def CP_AIR : ℚ := 1006

def RHO_AIR : ℚ := 6/5

def CP_WATER : ℚ := 4186

def RHO_WATER : ℚ := 1000

def GRAVITY : ℚ := 981/100

/-- `CalculationSettings` dataclass with its default values. -/
structure CalculationSettings where
  timestep_minutes : ℕ := 60
  include_thermal_mass : Bool := true
  include_solar_gains : Bool := true
  include_infiltration : Bool := true
  include_ventilation : Bool := true
  cooling_safety_factor : ℚ := 11/10
  heating_safety_factor : ℚ := 11/10
  cooling_supply_air_temp : ℚ := 13
  heating_supply_air_temp : ℚ := 35
  indoor_cooling_temp : ℚ := 24
  indoor_heating_temp : ℚ := 21
  indoor_humidity : ℚ := 50

def defaultSettings : CalculationSettings := {}

/-- `SurfaceType` enum from `models.py`. -/
inductive SurfaceType where
  | exterior_wall
  | interior_wall
  | roof
  | ceiling
  | floor
  | slab_on_grade
  | underground_wall
  | underground_floor
deriving DecidableEq, Repr

/-- `SpaceType` enum from `models.py` (21 members). -/
inductive SpaceType where
  | office_enclosed
  | office_open_plan
  | conference_room
  | lobby
  | corridor
  | restroom
  | storage
  | mechanical
  | classroom
  | auditorium
  | retail
  | restaurant
  | kitchen
  | laboratory
  | hospital_patient
  | hospital_exam
  | residential
  | warehouse
  | manufacturing
  | data_center
  | custom
deriving DecidableEq, Repr

/-- The `.value` string of each `SpaceType` member. -/
def SpaceType.value : SpaceType → String
  | .office_enclosed => "office_enclosed"
  | .office_open_plan => "office_open_plan"
  | .conference_room => "conference_room"
  | .lobby => "lobby"
  | .corridor => "corridor"
  | .restroom => "restroom"
  | .storage => "storage"
  | .mechanical => "mechanical"
  | .classroom => "classroom"
  | .auditorium => "auditorium"
  | .retail => "retail"
  | .restaurant => "restaurant"
  | .kitchen => "kitchen"
  | .laboratory => "laboratory"
  | .hospital_patient => "hospital_patient"
  | .hospital_exam => "hospital_exam"
  | .residential => "residential"
  | .warehouse => "warehouse"
  | .manufacturing => "manufacturing"
  | .data_center => "data_center"
  | .custom => "custom"

/-- `Material` dataclass (thermal layer). -/
structure Material where
  id : String := ""
  name : String := ""
  conductivity : ℚ := 1
  density : ℚ := 2000
  specific_heat : ℚ := 1000
  thickness : ℚ := 1/10

/-- `Material.resistance` property. -/
def Material.resistance (m : Material) : ℚ :=
  if 0 < m.conductivity then m.thickness / m.conductivity else 0

/-- `Construction` dataclass (layer stack plus air films). -/
structure Construction where
  id : String := ""
  name : String := ""
  layers : List Material := []
  inside_film_resistance : ℚ := 12/100
  outside_film_resistance : ℚ := 3/100

/-- `Construction.total_resistance` property. -/
def Construction.total_resistance (c : Construction) : ℚ :=
  c.inside_film_resistance + c.outside_film_resistance
    + (c.layers.map Material.resistance).sum

/-- `Construction.u_value` property. -/
def Construction.u_value (c : Construction) : ℚ :=
  if 0 < c.total_resistance then 1 / c.total_resistance else 0

/-- `Glazing` dataclass with its defaults. -/
structure Glazing where
  id : String := ""
  name : String := "Double Clear"
  u_value : ℚ := 28/10
  shgc : ℚ := 7/10
  vt : ℚ := 75/100
  frame_u_value : ℚ := 35/10
  frame_fraction : ℚ := 15/100
  interior_shade_multiplier : ℚ := 1
  exterior_shade_multiplier : ℚ := 1

/-- `Glazing.assembly_u_value` property. -/
def Glazing.assembly_u_value (g : Glazing) : ℚ :=
  g.u_value * (1 - g.frame_fraction) + g.frame_u_value * g.frame_fraction

/-- `Surface` dataclass (only geometric fields used by the calculator). -/
structure Surface where
  id : String := ""
  name : String := ""
  surface_type : SurfaceType := .exterior_wall
  area : ℚ := 0
  azimuth : ℚ := 0
  tilt : ℚ := 90
  construction : Option Construction := none
  adjacent_space_id : Option String := none
  adjacent_condition : String := "outdoor"

/-- `Fenestration` dataclass. -/
structure Fenestration where
  id : String := ""
  name : String := ""
  parent_surface_id : String := ""
  glazing : Option Glazing := none
  area : ℚ := 0
  height : ℚ := 15/10
  width : ℚ := 12/10
  sill_height : ℚ := 9/10

/-- `InternalLoad` dataclass with its defaults. -/
structure InternalLoad where
  id : String := ""
  name : String := ""
  people_count : ℚ := 0
  people_per_area : ℚ := 0
  activity_level : ℚ := 120
  sensible_fraction : ℚ := 6/10
  radiant_fraction : ℚ := 3/10
  people_schedule_id : Option String := none
  lighting_power_density : ℚ := 10
  lighting_radiant_fraction : ℚ := 37/100
  lighting_visible_fraction : ℚ := 18/100
  lighting_schedule_id : Option String := none
  equipment_power_density : ℚ := 10
  equipment_radiant_fraction : ℚ := 3/10
  equipment_latent_fraction : ℚ := 0
  equipment_schedule_id : Option String := none

/-- `Infiltration` dataclass. -/
structure Infiltration where
  id : String := ""
  name : String := ""
  method : String := "air_changes"
  air_changes_per_hour : ℚ := 3/10
  flow_per_exterior_area : ℚ := 3/10000
  flow_per_zone : ℚ := 0
  schedule_id : Option String := none

/-- `Ventilation` dataclass. -/
structure Ventilation where
  id : String := ""
  name : String := ""
  outdoor_air_per_person : ℚ := 25/10000
  outdoor_air_per_area : ℚ := 3/10000
  total_outdoor_air : ℚ := 0
  schedule_id : Option String := none
  heat_recovery_effectiveness : ℚ := 0
  sensible_effectiveness : ℚ := 0
  latent_effectiveness : ℚ := 0

/-- `Schedule` dataclass: three 24-hour value arrays. -/
structure Schedule where
  id : String := ""
  name : String := ""
  schedule_type : String := "fraction"
  weekday_values : Fin 24 → ℚ := fun _ => 1
  weekend_values : Fin 24 → ℚ := fun _ => 1/2
  holiday_values : Fin 24 → ℚ := fun _ => 0

/-- `Schedule.get_value(hour, day_type)`: index `hour % 24` into the array
for the day type. -/
def Schedule.get_value (s : Schedule) (hour : ℕ) (day_type : String) : ℚ :=
  let h : Fin 24 := ⟨hour % 24, Nat.mod_lt _ (by omega)⟩
  if day_type = "weekend" then s.weekend_values h
  else if day_type = "holiday" then s.holiday_values h
  else s.weekday_values h

/-- `Space` dataclass. -/
structure Space where
  id : String := ""
  name : String := ""
  space_type : SpaceType := .office_enclosed
  floor_area : ℚ := 0
  volume : ℚ := 0
  height : ℚ := 3
  x : ℚ := 0
  y : ℚ := 0
  z : ℚ := 0
  surfaces : List Surface := []
  fenestrations : List Fenestration := []
  internal_load : Option InternalLoad := none
  infiltration : Option Infiltration := none
  ventilation : Option Ventilation := none
  cooling_setpoint : ℚ := 24
  heating_setpoint : ℚ := 21
  humidity_setpoint : ℚ := 50
  multiplier : ℤ := 1
  zone_id : Option String := none

/-- `Zone` dataclass. -/
structure Zone where
  id : String := ""
  name : String := ""
  space_ids : List String := []
  cooling_setpoint : ℚ := 24
  heating_setpoint : ℚ := 21
  humidity_setpoint : ℚ := 50
  cooling_sizing_factor : ℚ := 115/100
  heating_sizing_factor : ℚ := 125/100
  system_id : Option String := none

/-- `System` dataclass. -/
structure System where
  id : String := ""
  name : String := ""
  system_type : String := "vav"
  zone_ids : List String := []
  cooling_supply_air_temp : ℚ := 13
  heating_supply_air_temp : ℚ := 35
  supply_air_humidity : ℚ := 90
  fan_efficiency : ℚ := 7/10
  fan_pressure_rise : ℚ := 1000
  fan_motor_efficiency : ℚ := 9/10
  fan_motor_in_airstream : Bool := true
  sizing_method : String := "coincident"
  cooling_sizing_factor : ℚ := 11/10
  heating_sizing_factor : ℚ := 11/10
  plant_loop_id : Option String := none

/-- `Plant` dataclass. -/
structure Plant where
  id : String := ""
  name : String := ""
  plant_type : String := "chiller_boiler"
  system_ids : List String := []
  chiller_type : String := "water_cooled_centrifugal"
  chiller_cop : ℚ := 6
  chilled_water_temp : ℚ := 7
  boiler_type : String := "hot_water"
  boiler_efficiency : ℚ := 85/100
  hot_water_temp : ℚ := 82
  tower_type : String := "open"
  tower_approach : ℚ := 4
  chw_pump_head : ℚ := 150
  hw_pump_head : ℚ := 100
  cw_pump_head : ℚ := 200
  pump_efficiency : ℚ := 7/10
  cooling_sizing_factor : ℚ := 11/10
  heating_sizing_factor : ℚ := 11/10

/-- `DesignDay` dataclass (fields used by the calculator). -/
structure DesignDay where
  id : String := ""
  name : String := ""
  day_type : String := "cooling"
  month : ℕ := 7
  day : ℕ := 21
  dry_bulb_max : ℚ := 35
  dry_bulb_min : ℚ := 24
  daily_range : ℚ := 11
  wet_bulb_coincident : ℚ := 24
  clearness : ℚ := 1
  wind_speed : ℚ := 4

/-- `WeatherData` dataclass (fields used by the calculator). -/
structure WeatherData where
  id : String := ""
  name : String := ""
  city : String := ""
  state : String := ""
  country : String := ""
  latitude : ℚ := 0
  longitude : ℚ := 0
  elevation : ℚ := 0
  timezone : ℚ := 0
  cooling_design_days : List DesignDay := []
  heating_design_days : List DesignDay := []
  cooling_db_004 : ℚ := 35
  cooling_wb_004 : ℚ := 24
  heating_db_996 : ℚ := -15

/-- `Building` dataclass.  The `schedules` dict is kept as an association
list in insertion order (Python dict keys are unique). -/
structure Building where
  id : String := ""
  name : String := ""
  building_type : String := "office"
  address : String := ""
  weather_data : Option WeatherData := none
  orientation : ℚ := 0
  spaces : List Space := []
  zones : List Zone := []
  systems : List System := []
  plants : List Plant := []
  schedules : List (String × Schedule) := []

/-- `Project` dataclass (fields used by `calculate_project`). -/
structure Project where
  id : String := ""
  name : String := ""
  description : String := ""
  building : Option Building := none
  calculation_method : String := "heat_balance"
  unit_system : String := "SI"
  cooling_safety_factor : ℚ := 11/10
  heating_safety_factor : ℚ := 11/10

/-! ### Results model (`results.py`)

Hourly arrays (`[0.0] * 24` lists indexed per hour) are embedded as
functions `Fin 24 → ℚ`.  `max(list)` becomes `profMax`, and
`list.index(max(list))` — the first index attaining the maximum — becomes
`peak_hour_of`. -/

/-- Maximum of a 24-hour profile (Python `max(self.total_cooling)`). -/
def profMax (f : Fin 24 → ℚ) : ℚ :=
  Finset.univ.sup' Finset.univ_nonempty f

/-- First hour attaining the profile maximum
(Python `list.index(max(list))`). -/
def peak_hour_of (f : Fin 24 → ℚ) : Fin 24 :=
  ((List.finRange 24).find? (fun i => decide (profMax f ≤ f i))).getD 0

/-- `LoadComponent` dataclass.  `__post_init__` sets `total_cooling` to
`sensible_cooling + latent_cooling` whenever it was left at its default 0;
the calculator never passes `total_cooling` explicitly, so the field is
embedded as the derived `LoadComponent.total_cooling`. -/
structure LoadComponent where
  name : String := ""
  sensible_cooling : ℚ := 0
  latent_cooling : ℚ := 0
  sensible_heating : ℚ := 0
  description : String := ""

def LoadComponent.total_cooling (c : LoadComponent) : ℚ :=
  c.sensible_cooling + c.latent_cooling

/-- `HourlyLoadProfile` dataclass. -/
structure HourlyLoadProfile where
  sensible_cooling : Fin 24 → ℚ := fun _ => 0
  latent_cooling : Fin 24 → ℚ := fun _ => 0
  total_cooling : Fin 24 → ℚ := fun _ => 0
  sensible_heating : Fin 24 → ℚ := fun _ => 0
  outdoor_temp : Fin 24 → ℚ := fun _ => 20

/-- `HourlyLoadProfile.peak_cooling_hour` property. -/
def HourlyLoadProfile.peak_cooling_hour (p : HourlyLoadProfile) : Fin 24 :=
  peak_hour_of p.total_cooling

/-- `HourlyLoadProfile.peak_heating_hour` property. -/
def HourlyLoadProfile.peak_heating_hour (p : HourlyLoadProfile) : Fin 24 :=
  peak_hour_of p.sensible_heating

/-- `PeakLoadSummary` dataclass. -/
structure PeakLoadSummary where
  peak_sensible_cooling : ℚ := 0
  peak_latent_cooling : ℚ := 0
  peak_total_cooling : ℚ := 0
  peak_sensible_heating : ℚ := 0
  peak_cooling_month : ℕ := 7
  peak_cooling_day : ℕ := 21
  peak_cooling_hour : ℕ := 15
  peak_heating_month : ℕ := 1
  peak_heating_day : ℕ := 21
  peak_heating_hour : ℕ := 7
  outdoor_temp_at_cooling_peak : ℚ := 35
  outdoor_temp_at_heating_peak : ℚ := -15
  cooling_w_per_m2 : ℚ := 0
  heating_w_per_m2 : ℚ := 0

/-- `SpaceLoadResult` dataclass.  The `components` dict is an association
list in insertion order. -/
structure SpaceLoadResult where
  space_id : String := ""
  space_name : String := ""
  floor_area : ℚ := 0
  volume : ℚ := 0
  exterior_wall_area : ℚ := 0
  window_area : ℚ := 0
  roof_area : ℚ := 0
  peak_summary : PeakLoadSummary := {}
  components : List (String × LoadComponent) := []
  cooling_design_day_profile : HourlyLoadProfile := {}
  heating_design_day_profile : HourlyLoadProfile := {}
  supply_airflow_cooling : ℚ := 0
  supply_airflow_heating : ℚ := 0
  outdoor_airflow : ℚ := 0
  exhaust_airflow : ℚ := 0
  room_sensible_heat_ratio : ℚ := 0
  apparatus_dew_point : ℚ := 0
  bypass_factor : ℚ := 0

/-- `ZoneLoadResult` dataclass. -/
structure ZoneLoadResult where
  zone_id : String := ""
  zone_name : String := ""
  space_ids : List String := []
  space_results : List SpaceLoadResult := []
  total_floor_area : ℚ := 0
  total_volume : ℚ := 0
  peak_summary : PeakLoadSummary := {}
  cooling_diversity_factor : ℚ := 1
  heating_diversity_factor : ℚ := 1
  cooling_sizing_factor : ℚ := 115/100
  heating_sizing_factor : ℚ := 125/100
  sized_cooling_load : ℚ := 0
  sized_heating_load : ℚ := 0
  zone_supply_airflow : ℚ := 0
  zone_outdoor_airflow : ℚ := 0
  hourly_profile : HourlyLoadProfile := {}

/-- `SystemLoadResult` dataclass. -/
structure SystemLoadResult where
  system_id : String := ""
  system_name : String := ""
  system_type : String := ""
  zone_ids : List String := []
  zone_results : List ZoneLoadResult := []
  total_floor_area : ℚ := 0
  block_cooling_sensible : ℚ := 0
  block_cooling_latent : ℚ := 0
  block_cooling_total : ℚ := 0
  block_heating : ℚ := 0
  sum_zone_cooling : ℚ := 0
  sum_zone_heating : ℚ := 0
  cooling_diversity_factor : ℚ := 1
  heating_diversity_factor : ℚ := 1
  cooling_sizing_factor : ℚ := 11/10
  heating_sizing_factor : ℚ := 11/10
  sized_cooling_capacity : ℚ := 0
  sized_heating_capacity : ℚ := 0
  total_supply_airflow : ℚ := 0
  total_outdoor_airflow : ℚ := 0
  total_return_airflow : ℚ := 0
  cooling_coil_total : ℚ := 0
  cooling_coil_sensible : ℚ := 0
  cooling_coil_latent : ℚ := 0
  heating_coil_load : ℚ := 0
  preheat_coil_load : ℚ := 0
  reheat_coil_load : ℚ := 0
  supply_fan_power : ℚ := 0
  return_fan_power : ℚ := 0
  mixed_air_temp : ℚ := 0
  supply_air_temp : ℚ := 13
  hourly_profile : HourlyLoadProfile := {}

/-- `PlantLoadResult` dataclass. -/
structure PlantLoadResult where
  plant_id : String := ""
  plant_name : String := ""
  plant_type : String := ""
  system_ids : List String := []
  system_results : List SystemLoadResult := []
  total_floor_area : ℚ := 0
  total_chiller_load : ℚ := 0
  total_boiler_load : ℚ := 0
  total_cooling_tower_load : ℚ := 0
  cooling_diversity_factor : ℚ := 1
  heating_diversity_factor : ℚ := 1
  cooling_sizing_factor : ℚ := 11/10
  heating_sizing_factor : ℚ := 11/10
  chiller_capacity : ℚ := 0
  boiler_capacity : ℚ := 0
  cooling_tower_capacity : ℚ := 0
  chw_pump_power : ℚ := 0
  hw_pump_power : ℚ := 0
  cw_pump_power : ℚ := 0
  chw_flow_rate : ℚ := 0
  hw_flow_rate : ℚ := 0
  cw_flow_rate : ℚ := 0
  chiller_energy_input : ℚ := 0
  boiler_energy_input : ℚ := 0
  cooling_tower_fan_power : ℚ := 0
  num_chillers_recommended : ℤ := 1
  num_boilers_recommended : ℤ := 1
  chiller_size_each : ℚ := 0
  boiler_size_each : ℚ := 0
  hourly_profile : HourlyLoadProfile := {}

/-- `ProjectLoadResult` dataclass. -/
structure ProjectLoadResult where
  project_id : String := ""
  project_name : String := ""
  calculation_method : String := "heat_balance"
  building_name : String := ""
  total_floor_area : ℚ := 0
  total_volume : ℚ := 0
  num_spaces : ℕ := 0
  num_zones : ℕ := 0
  num_systems : ℕ := 0
  location : String := ""
  latitude : ℚ := 0
  longitude : ℚ := 0
  cooling_design_temp : ℚ := 35
  heating_design_temp : ℚ := -15
  total_cooling_load : ℚ := 0
  total_heating_load : ℚ := 0
  cooling_w_per_m2 : ℚ := 0
  heating_w_per_m2 : ℚ := 0
  space_results : List SpaceLoadResult := []
  zone_results : List ZoneLoadResult := []
  system_results : List SystemLoadResult := []
  plant_results : List PlantLoadResult := []
  warnings : List String := []
  notes : List String := []

/-! ### The load calculator (`calculator.py`, class `ASHRAELoadCalculator`)

Leading underscores of the private Python methods are dropped.  The solar
model built on `math.cos`/`math.sin` (`_get_solar_on_surface`,
`_get_solar_intensity`) is abstracted as oracle parameters `solarSurf` and
`solarInt`; everything else is translated literally. -/

/-- Typical office occupancy schedule from `_get_typical_schedule_value`. -/
def typicalScheduleList : List ℚ :=
  [0, 0, 0, 0, 0, 0,
   1/10, 1/2, 9/10, 1, 1, 9/10,
   1/2, 9/10, 1, 1, 1, 1/2,
   2/10, 1/10, 0, 0, 0, 0]

def get_typical_schedule_value (hour : ℕ) : ℚ :=
  typicalScheduleList.getD hour 0

/-- `_get_schedule_value`: fall back to the typical schedule when the id is
absent or not in the building's schedule dict, else the weekday value. -/
def get_schedule_value (schedule_id : Option String) (hour : ℕ)
    (building : Building) : ℚ :=
  match schedule_id with
  | none => get_typical_schedule_value hour
  | some sid =>
    match building.schedules.find? (fun kv => kv.1 == sid) with
    | none => get_typical_schedule_value hour
    | some kv => kv.2.get_value hour "weekday"

/-- ASHRAE clear-day temperature profile from `_get_design_day_temp`. -/
def ashraeProfile : List ℚ :=
  [88/100, 92/100, 95/100, 98/100, 1, 98/100,
   91/100, 74/100, 55/100, 38/100, 23/100, 13/100,
   5/100, 0, 0, 6/100, 14/100, 24/100,
   39/100, 1/2, 59/100, 68/100, 75/100, 82/100]

/-- `_get_design_day_temp`: `dry_bulb_max - profile[hour] * daily_range`. -/
def get_design_day_temp (dd : DesignDay) (hour : ℕ) : ℚ :=
  dd.dry_bulb_max - ashraeProfile.getD hour 0 * dd.daily_range

/-- `_calculate_sol_air_temp`, with the surface solar irradiance already
computed (by the abstracted solar oracle). -/
def calculate_sol_air_temp (solar : ℚ) (outdoor_temp : ℚ)
    (surface : Surface) : ℚ :=
  let alpha : ℚ := if surface.surface_type = SurfaceType.roof then 7/10 else 6/10
  let h_o : ℚ := 227/10
  let delta_r : ℚ := if surface.tilt < 45 then 4 else 0
  outdoor_temp + alpha * solar / h_o - delta_r

/-- One row of the per-space-type default internal-loads table. -/
structure DefaultLoads where
  people_sensible : ℚ
  people_latent : ℚ
  lighting : ℚ
  equipment : ℚ
deriving DecidableEq, Repr

/-- The `defaults` dict of `_get_default_internal_loads` (11 keys, in
source order). -/
def defaultLoadsTable : List (String × DefaultLoads) :=
  [("office_enclosed", ⟨5, 7/2, 10, 10⟩),
   ("office_open_plan", ⟨6, 4, 12, 12⟩),
   ("conference_room", ⟨25, 18, 15, 5⟩),
   ("lobby", ⟨3, 2, 10, 2⟩),
   ("corridor", ⟨1, 7/10, 5, 0⟩),
   ("restroom", ⟨3, 5, 8, 2⟩),
   ("storage", ⟨1/2, 3/10, 5, 0⟩),
   ("classroom", ⟨20, 14, 12, 5⟩),
   ("retail", ⟨8, 55/10, 15, 5⟩),
   ("restaurant", ⟨15, 10, 12, 20⟩),
   ("data_center", ⟨1, 1/2, 5, 500⟩)]

/-- `_get_default_internal_loads`: look up `space_type.value`, falling back
to the `office_enclosed` row (whose table entry is `⟨5, 7/2, 10, 10⟩`). -/
def get_default_internal_loads (space_type : SpaceType) : DefaultLoads :=
  ((defaultLoadsTable.find? (fun kv => kv.1 == space_type.value)).map
    Prod.snd).getD ⟨5, 7/2, 10, 10⟩

/-- `_calculate_supply_airflow`: clamp the temperature difference to at
least 1 °C, then mass flow over `CP_AIR`, then volume flow over
`RHO_AIR`. -/
def calculate_supply_airflow (sensible_load supply_temp room_temp : ℚ) : ℚ :=
  let delta_t := |room_temp - supply_temp|
  let delta_t := if delta_t < 1 then 1 else delta_t
  let mass_flow := sensible_load / (CP_AIR * delta_t)
  mass_flow / RHO_AIR

/-- `_calculate_outdoor_air` (ASHRAE 62.1 method with override). -/
def calculate_outdoor_air (space : Space) (ventilation : Ventilation) : ℚ :=
  if 0 < ventilation.total_outdoor_air then ventilation.total_outdoor_air
  else
    let people :=
      match space.internal_load with
      | some il =>
        if 0 < il.people_count then il.people_count
        else if 0 < il.people_per_area then il.people_per_area * space.floor_area
        else space.floor_area / 10
      | none => space.floor_area / 10
    ventilation.outdoor_air_per_person * people
      + ventilation.outdoor_air_per_area * space.floor_area

/-- `_calculate_mixed_air_temp` with the OA fraction clamped to `[0, 1]`. -/
def calculate_mixed_air_temp (total_flow outdoor_flow outdoor_temp
    return_temp : ℚ) : ℚ :=
  if total_flow ≤ 0 then return_temp
  else
    let oa_fraction := outdoor_flow / total_flow
    let oa_fraction := min 1 (max 0 oa_fraction)
    oa_fraction * outdoor_temp + (1 - oa_fraction) * return_temp

/-- `_calculate_fan_power`: returns 0 when either efficiency is
non-positive. -/
def calculate_fan_power (flow_rate pressure_rise fan_efficiency
    motor_efficiency : ℚ) : ℚ :=
  if fan_efficiency ≤ 0 ∨ motor_efficiency ≤ 0 then 0
  else flow_rate * pressure_rise / (fan_efficiency * motor_efficiency)

/-- `_calculate_pump_power`: returns 0 when the efficiency is
non-positive. -/
def calculate_pump_power (flow_rate head efficiency : ℚ) : ℚ :=
  if efficiency ≤ 0 then 0
  else
    let head_m := head / (981/100)
    RHO_WATER * GRAVITY * flow_rate * head_m / efficiency

/-- `_default_weather`. -/
def default_weather : WeatherData :=
  { name := "Default", city := "Default City", latitude := 40,
    longitude := -100, elevation := 200, cooling_db_004 := 35,
    cooling_wb_004 := 24, heating_db_996 := -15 }

/-- `_default_cooling_design_day`. -/
def default_cooling_design_day : DesignDay :=
  { name := "Summer Design Day", day_type := "cooling", month := 7,
    day := 21, dry_bulb_max := 35, daily_range := 11,
    wet_bulb_coincident := 24 }

/-- `_default_heating_design_day`. -/
def default_heating_design_day : DesignDay :=
  { name := "Winter Design Day", day_type := "heating", month := 1,
    day := 21, dry_bulb_max := -15, daily_range := 0 }

/-- `_calculate_hourly_loads`: the ordered component map for one hour.
The Python dict keyed by component name becomes an association list in
insertion order. -/
def calculate_hourly_loads (st : CalculationSettings)
    (solarSurf : ℕ → Surface → DesignDay → ℚ)
    (solarInt : ℕ → DesignDay → ℚ)
    (space : Space) (building : Building) (outdoor_temp : ℚ) (hour : ℕ)
    (design_day : DesignDay) (is_cooling : Bool) :
    List (String × LoadComponent) :=
  let indoor_temp :=
    if is_cooling then st.indoor_cooling_temp else st.indoor_heating_temp
  -- 1. Envelope conduction
  let envelope_sensible := (space.surfaces.map (fun surface =>
    if surface.surface_type = SurfaceType.exterior_wall
        ∨ surface.surface_type = SurfaceType.roof then
      let u_value := (surface.construction.map Construction.u_value).getD (1/2)
      let sol_air_temp :=
        calculate_sol_air_temp (solarSurf hour surface design_day)
          outdoor_temp surface
      let q := u_value * surface.area * (sol_air_temp - indoor_temp)
      if is_cooling then max 0 q else 0
    else 0)).sum
  let envComps : List (String × LoadComponent) :=
    [("envelope_conduction",
      { name := "Envelope Conduction", sensible_cooling := envelope_sensible,
        description := "Heat gain through walls and roof" })]
  -- 2. Window solar and conduction
  let window_solar := (space.fenestrations.map (fun fen =>
    let glazing := fen.glazing.getD {}
    glazing.shgc * fen.area * solarInt hour design_day * (1/2))).sum
  let window_conduction := (space.fenestrations.map (fun fen =>
    let glazing := fen.glazing.getD {}
    glazing.assembly_u_value * fen.area * (outdoor_temp - indoor_temp))).sum
  let windowComps : List (String × LoadComponent) :=
    [("window_solar",
      { name := "Window Solar",
        sensible_cooling := if is_cooling then max 0 window_solar else 0,
        description := "Solar heat gain through windows" }),
     ("window_conduction",
      { name := "Window Conduction",
        sensible_cooling := if is_cooling then max 0 window_conduction else 0,
        description := "Conduction through windows" })]
  -- 3. Internal loads
  let internalComps : List (String × LoadComponent) :=
    match space.internal_load with
    | some load =>
      let schedule_value := get_schedule_value load.people_schedule_id hour building
      let num_people :=
        if 0 < load.people_count then load.people_count
        else load.people_per_area * space.floor_area
      let people_sensible :=
        num_people * load.activity_level * load.sensible_fraction * schedule_value
      let people_latent :=
        num_people * load.activity_level * (1 - load.sensible_fraction) * schedule_value
      let light_schedule := get_schedule_value load.lighting_schedule_id hour building
      let lighting_power := load.lighting_power_density * space.floor_area * light_schedule
      let equip_schedule := get_schedule_value load.equipment_schedule_id hour building
      let equip_power := load.equipment_power_density * space.floor_area * equip_schedule
      let equip_latent := equip_power * load.equipment_latent_fraction
      [("people",
        { name := "People",
          sensible_cooling := if is_cooling then people_sensible else 0,
          latent_cooling := if is_cooling then people_latent else 0 }),
       ("lighting",
        { name := "Lighting",
          sensible_cooling := if is_cooling then lighting_power else 0 }),
       ("equipment",
        { name := "Equipment",
          sensible_cooling := if is_cooling then equip_power - equip_latent else 0,
          latent_cooling := if is_cooling then equip_latent else 0 })]
    | none =>
      let default_loads := get_default_internal_loads space.space_type
      let schedule_value := get_typical_schedule_value hour
      [("people",
        { name := "People",
          sensible_cooling :=
            if is_cooling then
              default_loads.people_sensible * space.floor_area * schedule_value
            else 0,
          latent_cooling :=
            if is_cooling then
              default_loads.people_latent * space.floor_area * schedule_value
            else 0 }),
       ("lighting",
        { name := "Lighting",
          sensible_cooling :=
            if is_cooling then
              default_loads.lighting * space.floor_area * schedule_value
            else 0 }),
       ("equipment",
        { name := "Equipment",
          sensible_cooling :=
            if is_cooling then
              default_loads.equipment * space.floor_area * schedule_value
            else 0 })]
  -- 4. Infiltration
  let infilComps : List (String × LoadComponent) :=
    match (if st.include_infiltration then space.infiltration else none) with
    | some inf =>
      let infiltration_flow :=
        if inf.method = "air_changes" then
          inf.air_changes_per_hour * space.volume / 3600
        else inf.flow_per_zone
      let inf_sensible :=
        infiltration_flow * RHO_AIR * CP_AIR * (outdoor_temp - indoor_temp)
      let inf_latent := infiltration_flow * RHO_AIR * 2500 * (5/1000)
      [("infiltration",
        { name := "Infiltration",
          sensible_cooling := if is_cooling then max 0 inf_sensible else 0,
          latent_cooling := if is_cooling then max 0 inf_latent else 0 })]
    | none =>
      let infiltration_flow := (3/10) * space.volume / 3600
      let inf_sensible :=
        infiltration_flow * RHO_AIR * CP_AIR * (outdoor_temp - indoor_temp)
      [("infiltration",
        { name := "Infiltration",
          sensible_cooling := if is_cooling then max 0 inf_sensible else 0,
          latent_cooling :=
            if is_cooling then max 0 (inf_sensible * (3/10)) else 0 })]
  -- 5. Ventilation
  let ventComps : List (String × LoadComponent) :=
    match (if st.include_ventilation then space.ventilation else none) with
    | some vent =>
      let vent_flow := calculate_outdoor_air space vent
      let vent_sensible :=
        vent_flow * RHO_AIR * CP_AIR * (outdoor_temp - indoor_temp)
      let vent_latent := vent_flow * RHO_AIR * 2500 * (5/1000)
      [("ventilation",
        { name := "Ventilation",
          sensible_cooling := if is_cooling then max 0 vent_sensible else 0,
          latent_cooling := if is_cooling then max 0 vent_latent else 0 })]
    | none => []
  envComps ++ windowComps ++ internalComps ++ infilComps ++ ventComps

/-- `_calculate_heating_load`: steady-state heating load, each term clamped
to be non-negative. -/
def calculate_heating_load (st : CalculationSettings) (space : Space)
    (outdoor_temp : ℚ) : ℚ :=
  let indoor_temp := st.indoor_heating_temp
  let envelope := (space.surfaces.map (fun surface =>
    if surface.surface_type = SurfaceType.exterior_wall
        ∨ surface.surface_type = SurfaceType.roof then
      let u_value := (surface.construction.map Construction.u_value).getD (1/2)
      max 0 (u_value * surface.area * (indoor_temp - outdoor_temp))
    else if surface.surface_type = SurfaceType.slab_on_grade then
      let u_value := (surface.construction.map Construction.u_value).getD (3/10)
      let ground_temp : ℚ := 10
      max 0 (u_value * surface.area * (indoor_temp - ground_temp))
    else 0)).sum
  let windows := (space.fenestrations.map (fun fen =>
    let glazing := fen.glazing.getD {}
    max 0 (glazing.assembly_u_value * fen.area * (indoor_temp - outdoor_temp)))).sum
  let infiltration_flow :=
    match space.infiltration with
    | some inf =>
      if inf.method = "air_changes" then
        inf.air_changes_per_hour * space.volume / 3600
      else inf.flow_per_zone
    | none => (3/10) * space.volume / 3600
  let inf_load := infiltration_flow * RHO_AIR * CP_AIR * (indoor_temp - outdoor_temp)
  let vent_flow :=
    match space.ventilation with
    | some vent => calculate_outdoor_air space vent
    | none => (25/10000) * (space.floor_area / 10) + (3/10000) * space.floor_area
  let vent_load := vent_flow * RHO_AIR * CP_AIR * (indoor_temp - outdoor_temp)
  envelope + windows + max 0 inf_load + max 0 vent_load

/-- The cooling design day `_calculate_space_loads` selects: first cooling
design day of the building's weather, with defaults substituted. -/
def coolingDD (building : Building) : DesignDay :=
  ((building.weather_data.getD default_weather).cooling_design_days.head?).getD
    default_cooling_design_day

/-- The heating design day `_calculate_space_loads` selects. -/
def heatingDD (building : Building) : DesignDay :=
  ((building.weather_data.getD default_weather).heating_design_days.head?).getD
    default_heating_design_day

/-- The hourly sensible-cooling series built by the cooling-design-day loop
of `_calculate_space_loads`. -/
def spaceSens (st : CalculationSettings)
    (solarSurf : ℕ → Surface → DesignDay → ℚ) (solarInt : ℕ → DesignDay → ℚ)
    (space : Space) (building : Building) : Fin 24 → ℚ := fun hour =>
  ((calculate_hourly_loads st solarSurf solarInt space building
      (get_design_day_temp (coolingDD building) hour) hour
      (coolingDD building) true).map (fun c => c.2.sensible_cooling)).sum

/-- The hourly latent-cooling series of the same loop. -/
def spaceLat (st : CalculationSettings)
    (solarSurf : ℕ → Surface → DesignDay → ℚ) (solarInt : ℕ → DesignDay → ℚ)
    (space : Space) (building : Building) : Fin 24 → ℚ := fun hour =>
  ((calculate_hourly_loads st solarSurf solarInt space building
      (get_design_day_temp (coolingDD building) hour) hour
      (coolingDD building) true).map (fun c => c.2.latent_cooling)).sum

/-- The hourly heating series of the heating-design-day loop. -/
def spaceHeat (st : CalculationSettings) (space : Space)
    (building : Building) : Fin 24 → ℚ := fun hour =>
  calculate_heating_load st space (get_design_day_temp (heatingDD building) hour)

/-- The cooling design-day profile assembled by `_calculate_space_loads`
(`total_cooling[hour] = sensible + latent` per the loop body). -/
def space_cooling_profile (st : CalculationSettings)
    (solarSurf : ℕ → Surface → DesignDay → ℚ) (solarInt : ℕ → DesignDay → ℚ)
    (space : Space) (building : Building) : HourlyLoadProfile :=
  { outdoor_temp := fun hour => get_design_day_temp (coolingDD building) hour
    sensible_cooling := spaceSens st solarSurf solarInt space building
    latent_cooling := spaceLat st solarSurf solarInt space building
    total_cooling := fun hour =>
      spaceSens st solarSurf solarInt space building hour
        + spaceLat st solarSurf solarInt space building hour }

/-- The heating design-day profile assembled by `_calculate_space_loads`. -/
def space_heating_profile (st : CalculationSettings) (space : Space)
    (building : Building) : HourlyLoadProfile :=
  { outdoor_temp := fun hour => get_design_day_temp (heatingDD building) hour
    sensible_heating := spaceHeat st space building }

/-- The `PeakLoadSummary` built by `_calculate_space_loads` before the
per-area intensities are filled in. -/
def space_peak_summary0 (st : CalculationSettings)
    (solarSurf : ℕ → Surface → DesignDay → ℚ) (solarInt : ℕ → DesignDay → ℚ)
    (space : Space) (building : Building) : PeakLoadSummary :=
  let cooling_profile := space_cooling_profile st solarSurf solarInt space building
  let heating_profile := space_heating_profile st space building
  let peak_cooling_hour := cooling_profile.peak_cooling_hour
  let peak_heating_hour := heating_profile.peak_heating_hour
  { peak_sensible_cooling := profMax cooling_profile.sensible_cooling
    peak_latent_cooling := cooling_profile.latent_cooling peak_cooling_hour
    peak_total_cooling := profMax cooling_profile.total_cooling
    peak_sensible_heating := profMax heating_profile.sensible_heating
    peak_cooling_month := (coolingDD building).month
    peak_cooling_day := (coolingDD building).day
    peak_cooling_hour := (peak_cooling_hour : ℕ)
    peak_heating_month := (heatingDD building).month
    peak_heating_day := (heatingDD building).day
    peak_heating_hour := (peak_heating_hour : ℕ)
    outdoor_temp_at_cooling_peak := cooling_profile.outdoor_temp peak_cooling_hour
    outdoor_temp_at_heating_peak := heating_profile.outdoor_temp peak_heating_hour }

/-- The peak summary after the conditional per-area intensity fill-in. -/
def space_peak_summary (st : CalculationSettings)
    (solarSurf : ℕ → Surface → DesignDay → ℚ) (solarInt : ℕ → DesignDay → ℚ)
    (space : Space) (building : Building) : PeakLoadSummary :=
  let peak_summary0 := space_peak_summary0 st solarSurf solarInt space building
  if 0 < space.floor_area then
    { peak_summary0 with
      cooling_w_per_m2 := peak_summary0.peak_total_cooling / space.floor_area
      heating_w_per_m2 := peak_summary0.peak_sensible_heating / space.floor_area }
  else peak_summary0

/-- `_calculate_space_loads`.  The hourly series, profiles and peak summary
are the named definitions above; the remaining lines mirror the method
body. -/
def calculate_space_loads (st : CalculationSettings)
    (solarSurf : ℕ → Surface → DesignDay → ℚ)
    (solarInt : ℕ → DesignDay → ℚ)
    (space : Space) (building : Building) : SpaceLoadResult :=
  let cooling_dd := coolingDD building
  let cooling_profile := space_cooling_profile st solarSurf solarInt space building
  let heating_profile := space_heating_profile st space building
  let peak_cooling_hour := cooling_profile.peak_cooling_hour
  let outdoor_temp_peak := cooling_profile.outdoor_temp peak_cooling_hour
  let components :=
    calculate_hourly_loads st solarSurf solarInt space building
      outdoor_temp_peak peak_cooling_hour cooling_dd true
  let exterior_wall_area := (space.surfaces.map (fun s =>
    if s.surface_type = SurfaceType.exterior_wall then s.area else 0)).sum
  let roof_area := (space.surfaces.map (fun s =>
    if s.surface_type = SurfaceType.roof then s.area else 0)).sum
  let window_area := (space.fenestrations.map (fun f => f.area)).sum
  let peak_summary := space_peak_summary st solarSurf solarInt space building
  let supply_airflow_cooling :=
    calculate_supply_airflow peak_summary.peak_sensible_cooling
      st.cooling_supply_air_temp st.indoor_cooling_temp
  let supply_airflow_heating :=
    calculate_supply_airflow peak_summary.peak_sensible_heating
      st.heating_supply_air_temp st.indoor_heating_temp
  let outdoor_airflow :=
    match space.ventilation with
    | some vent => calculate_outdoor_air space vent
    | none => (25/10000) * (space.floor_area / 10) + (3/10000) * space.floor_area
  let total_sensible := peak_summary.peak_sensible_cooling
  let total_load := peak_summary.peak_total_cooling
  let room_sensible_heat_ratio :=
    if 0 < total_load then total_sensible / total_load else 0
  { space_id := space.id
    space_name := space.name
    floor_area := space.floor_area
    volume := space.volume
    exterior_wall_area := exterior_wall_area
    window_area := window_area
    roof_area := roof_area
    peak_summary := peak_summary
    components := components
    cooling_design_day_profile := cooling_profile
    heating_design_day_profile := heating_profile
    supply_airflow_cooling := supply_airflow_cooling
    supply_airflow_heating := supply_airflow_heating
    outdoor_airflow := outdoor_airflow
    room_sensible_heat_ratio := room_sensible_heat_ratio }

/-- `_calculate_zone_loads`: aggregate member-space results. -/
def calculate_zone_loads (zone : Zone)
    (space_results : List SpaceLoadResult) : ZoneLoadResult :=
  let total_floor_area := (space_results.map (fun sr => sr.floor_area)).sum
  let total_volume := (space_results.map (fun sr => sr.volume)).sum
  let zone_supply_airflow := (space_results.map (fun sr => sr.supply_airflow_cooling)).sum
  let zone_outdoor_airflow := (space_results.map (fun sr => sr.outdoor_airflow)).sum
  let peak_cooling := (space_results.map (fun sr => sr.peak_summary.peak_total_cooling)).sum
  let peak_heating := (space_results.map (fun sr => sr.peak_summary.peak_sensible_heating)).sum
  let peak_summary0 : PeakLoadSummary :=
    { peak_total_cooling := peak_cooling
      peak_sensible_cooling :=
        (space_results.map (fun sr => sr.peak_summary.peak_sensible_cooling)).sum
      peak_latent_cooling :=
        (space_results.map (fun sr => sr.peak_summary.peak_latent_cooling)).sum
      peak_sensible_heating := peak_heating
      peak_cooling_month := 7, peak_cooling_day := 21, peak_cooling_hour := 15
      peak_heating_month := 1, peak_heating_day := 21, peak_heating_hour := 7 }
  let peak_summary :=
    if 0 < total_floor_area then
      { peak_summary0 with
        cooling_w_per_m2 := peak_cooling / total_floor_area
        heating_w_per_m2 := peak_heating / total_floor_area }
    else peak_summary0
  let hourly_profile : HourlyLoadProfile :=
    { sensible_cooling := fun hour =>
        (space_results.map (fun sr => sr.cooling_design_day_profile.sensible_cooling hour)).sum
      latent_cooling := fun hour =>
        (space_results.map (fun sr => sr.cooling_design_day_profile.latent_cooling hour)).sum
      total_cooling := fun hour =>
        (space_results.map (fun sr => sr.cooling_design_day_profile.total_cooling hour)).sum
      sensible_heating := fun hour =>
        (space_results.map (fun sr => sr.heating_design_day_profile.sensible_heating hour)).sum }
  { zone_id := zone.id
    zone_name := zone.name
    space_ids := zone.space_ids
    space_results := space_results
    cooling_sizing_factor := zone.cooling_sizing_factor
    heating_sizing_factor := zone.heating_sizing_factor
    total_floor_area := total_floor_area
    total_volume := total_volume
    peak_summary := peak_summary
    sized_cooling_load := peak_cooling * zone.cooling_sizing_factor
    sized_heating_load := peak_heating * zone.heating_sizing_factor
    zone_supply_airflow := zone_supply_airflow
    zone_outdoor_airflow := zone_outdoor_airflow
    hourly_profile := hourly_profile }

/-- `_calculate_system_loads`. -/
def calculate_system_loads (st : CalculationSettings) (system : System)
    (zone_results : List ZoneLoadResult) : SystemLoadResult :=
  let total_floor_area := (zone_results.map (fun zr => zr.total_floor_area)).sum
  let total_supply_airflow := (zone_results.map (fun zr => zr.zone_supply_airflow)).sum
  let total_outdoor_airflow := (zone_results.map (fun zr => zr.zone_outdoor_airflow)).sum
  let sum_zone_cooling := (zone_results.map (fun zr => zr.sized_cooling_load)).sum
  let sum_zone_heating := (zone_results.map (fun zr => zr.sized_heating_load)).sum
  let hourly_totals_cooling : Fin 24 → ℚ := fun hour =>
    (zone_results.map (fun zr => zr.hourly_profile.total_cooling hour)).sum
  let hourly_totals_heating : Fin 24 → ℚ := fun hour =>
    (zone_results.map (fun zr => zr.hourly_profile.sensible_heating hour)).sum
  let block_cooling_total := profMax hourly_totals_cooling
  let block_heating := profMax hourly_totals_heating
  let cooling_diversity_factor :=
    if 0 < sum_zone_cooling then block_cooling_total / sum_zone_cooling else 1
  let heating_diversity_factor :=
    if 0 < sum_zone_heating then block_heating / sum_zone_heating else 1
  let total_sensible := (zone_results.map (fun zr => zr.peak_summary.peak_sensible_cooling)).sum
  let total_latent := (zone_results.map (fun zr => zr.peak_summary.peak_latent_cooling)).sum
  let ratio :=
    if 0 < total_sensible + total_latent then
      total_sensible / (total_sensible + total_latent)
    else 3/4
  let block_cooling_sensible :=
    if 0 < block_cooling_total then block_cooling_total * ratio else 0
  let block_cooling_latent :=
    if 0 < block_cooling_total then block_cooling_total * (1 - ratio) else 0
  let sized_cooling_capacity := block_cooling_total * system.cooling_sizing_factor
  let sized_heating_capacity := block_heating * system.heating_sizing_factor
  let outdoor_temp : ℚ := 35
  let mixed_air_temp :=
    calculate_mixed_air_temp total_supply_airflow total_outdoor_airflow
      outdoor_temp st.indoor_cooling_temp
  let supply_temp := system.cooling_supply_air_temp
  let cooling_coil_sensible :=
    total_supply_airflow * RHO_AIR * CP_AIR * (mixed_air_temp - supply_temp)
  let cooling_coil_latent := block_cooling_latent * (12/10)
  let cooling_coil_total := cooling_coil_sensible + cooling_coil_latent
  let heating_coil_load := block_heating * (11/10)
  let reheat_coil_load :=
    if system.system_type.toLower = "vav" then block_cooling_sensible * (2/10)
    else 0
  let supply_fan_power :=
    calculate_fan_power total_supply_airflow system.fan_pressure_rise
      system.fan_efficiency system.fan_motor_efficiency
  let hourly_profile : HourlyLoadProfile :=
    { sensible_cooling := fun hour =>
        (zone_results.map (fun zr => zr.hourly_profile.sensible_cooling hour)).sum
      total_cooling := hourly_totals_cooling
      sensible_heating := hourly_totals_heating }
  { system_id := system.id
    system_name := system.name
    system_type := system.system_type
    zone_ids := system.zone_ids
    zone_results := zone_results
    cooling_sizing_factor := system.cooling_sizing_factor
    heating_sizing_factor := system.heating_sizing_factor
    total_floor_area := total_floor_area
    total_supply_airflow := total_supply_airflow
    total_outdoor_airflow := total_outdoor_airflow
    sum_zone_cooling := sum_zone_cooling
    sum_zone_heating := sum_zone_heating
    block_cooling_total := block_cooling_total
    block_heating := block_heating
    cooling_diversity_factor := cooling_diversity_factor
    heating_diversity_factor := heating_diversity_factor
    block_cooling_sensible := block_cooling_sensible
    block_cooling_latent := block_cooling_latent
    sized_cooling_capacity := sized_cooling_capacity
    sized_heating_capacity := sized_heating_capacity
    mixed_air_temp := mixed_air_temp
    cooling_coil_sensible := cooling_coil_sensible
    cooling_coil_latent := cooling_coil_latent
    cooling_coil_total := cooling_coil_total
    heating_coil_load := heating_coil_load
    reheat_coil_load := reheat_coil_load
    supply_fan_power := supply_fan_power
    hourly_profile := hourly_profile }

/-- `_calculate_plant_loads`.  Python float division raises
`ZeroDivisionError` when the divisor is exactly zero: the compressor-heat
division by `chiller_cop` and the energy-input division by
`boiler_efficiency` are unguarded in the source, so the embedding returns
`none` exactly when one of those divisors is zero. -/
def calculate_plant_loads (plant : Plant)
    (system_results : List SystemLoadResult) : Option PlantLoadResult :=
  let total_floor_area := (system_results.map (fun sr => sr.total_floor_area)).sum
  let total_cooling_coil := (system_results.map (fun sr => sr.cooling_coil_total)).sum
  let total_heating_coil :=
    (system_results.map (fun sr => sr.heating_coil_load + sr.reheat_coil_load)).sum
  let total_chiller_load := total_cooling_coil * (105/100)
  let total_boiler_load := total_heating_coil * (105/100)
  if plant.chiller_cop = 0 then none
  else if plant.boiler_efficiency = 0 then none
  else
    let compressor_heat := total_chiller_load / plant.chiller_cop
    let total_cooling_tower_load := total_chiller_load + compressor_heat
    let chiller_capacity := total_chiller_load * plant.cooling_sizing_factor
    let boiler_capacity := total_boiler_load * plant.heating_sizing_factor
    let cooling_tower_capacity := total_cooling_tower_load * plant.cooling_sizing_factor
    let max_chiller_size : ℚ := 500 * 3517
    let num_chillers_recommended : ℤ :=
      if max_chiller_size < chiller_capacity then
        ⌈chiller_capacity / max_chiller_size⌉
      else max 1 ⌈chiller_capacity / (200 * 3517)⌉
    let chiller_size_each := chiller_capacity / (num_chillers_recommended : ℚ)
    let max_boiler_size : ℚ := 3000 * 1000
    let num_boilers_recommended : ℤ :=
      if max_boiler_size < boiler_capacity then
        ⌈boiler_capacity / max_boiler_size⌉
      else max 1 ⌈boiler_capacity / (500 * 1000)⌉
    let boiler_size_each := boiler_capacity / (num_boilers_recommended : ℚ)
    let chw_delta_t : ℚ := 55/10
    let hw_delta_t : ℚ := 11
    let cw_delta_t : ℚ := 55/10
    let chw_flow_rate :=
      total_chiller_load / (RHO_WATER * CP_WATER * chw_delta_t) * 1000
    let hw_flow_rate :=
      total_boiler_load / (RHO_WATER * CP_WATER * hw_delta_t) * 1000
    let cw_flow_rate :=
      total_cooling_tower_load / (RHO_WATER * CP_WATER * cw_delta_t) * 1000
    let chw_pump_power :=
      calculate_pump_power (chw_flow_rate / 1000) plant.chw_pump_head plant.pump_efficiency
    let hw_pump_power :=
      calculate_pump_power (hw_flow_rate / 1000) plant.hw_pump_head plant.pump_efficiency
    let cw_pump_power :=
      calculate_pump_power (cw_flow_rate / 1000) plant.cw_pump_head plant.pump_efficiency
    let chiller_energy_input := total_chiller_load / plant.chiller_cop
    let boiler_energy_input := total_boiler_load / plant.boiler_efficiency
    some
      { plant_id := plant.id
        plant_name := plant.name
        plant_type := plant.plant_type
        system_ids := plant.system_ids
        system_results := system_results
        cooling_sizing_factor := plant.cooling_sizing_factor
        heating_sizing_factor := plant.heating_sizing_factor
        total_floor_area := total_floor_area
        total_chiller_load := total_chiller_load
        total_boiler_load := total_boiler_load
        total_cooling_tower_load := total_cooling_tower_load
        chiller_capacity := chiller_capacity
        boiler_capacity := boiler_capacity
        cooling_tower_capacity := cooling_tower_capacity
        num_chillers_recommended := num_chillers_recommended
        chiller_size_each := chiller_size_each
        num_boilers_recommended := num_boilers_recommended
        boiler_size_each := boiler_size_each
        chw_flow_rate := chw_flow_rate
        hw_flow_rate := hw_flow_rate
        cw_flow_rate := cw_flow_rate
        chw_pump_power := chw_pump_power
        hw_pump_power := hw_pump_power
        cw_pump_power := cw_pump_power
        chiller_energy_input := chiller_energy_input
        boiler_energy_input := boiler_energy_input }

/-- `calculate_project`: raises `ValueError` when the project has no
building; raises (via `_calculate_plant_loads`) when a plant division by
zero occurs; otherwise returns the full result. -/
def calculate_project (st : CalculationSettings)
    (solarSurf : ℕ → Surface → DesignDay → ℚ)
    (solarInt : ℕ → DesignDay → ℚ)
    (project : Project) : Except String ProjectLoadResult :=
  match project.building with
  | none => .error "Project has no building defined"
  | some building =>
    let space_results := building.spaces.map (fun space =>
      calculate_space_loads st solarSurf solarInt space building)
    let total_floor_area :=
      (building.spaces.map (fun s => s.floor_area * (s.multiplier : ℚ))).sum
    let total_volume :=
      (building.spaces.map (fun s => s.volume * (s.multiplier : ℚ))).sum
    let zone_results0 := building.zones.map (fun zone =>
      calculate_zone_loads zone
        (space_results.filter (fun sr => zone.space_ids.contains sr.space_id)))
    let zone_results :=
      if zone_results0.isEmpty && !space_results.isEmpty then
        space_results.map (fun sr =>
          ({ zone_id := "zone-" ++ sr.space_id
             zone_name := sr.space_name
             space_ids := [sr.space_id]
             space_results := [sr]
             total_floor_area := sr.floor_area
             total_volume := sr.volume
             peak_summary := sr.peak_summary
             sized_cooling_load := sr.peak_summary.peak_total_cooling * (115/100)
             sized_heating_load := sr.peak_summary.peak_sensible_heating * (125/100)
             zone_supply_airflow := sr.supply_airflow_cooling
             zone_outdoor_airflow := sr.outdoor_airflow } : ZoneLoadResult))
      else zone_results0
    let system_results0 := building.systems.map (fun system =>
      calculate_system_loads st system
        (zone_results.filter (fun zr => system.zone_ids.contains zr.zone_id)))
    let system_results :=
      if system_results0.isEmpty && !zone_results.isEmpty then
        [calculate_system_loads st
          { id := "sys-default", name := "Default System",
            zone_ids := zone_results.map (fun z => z.zone_id) }
          zone_results]
      else system_results0
    let plant_results0 : Option (List PlantLoadResult) :=
      building.plants.mapM (fun plant =>
        calculate_plant_loads plant
          (system_results.filter (fun sr => plant.system_ids.contains sr.system_id)))
    match plant_results0 with
    | none => .error "ZeroDivisionError: float division by zero"
    | some plant_results1 =>
      let plant_resultsO : Option (List PlantLoadResult) :=
        if plant_results1.isEmpty && !system_results.isEmpty then
          (calculate_plant_loads
            { id := "plant-default", name := "Central Plant",
              system_ids := system_results.map (fun s => s.system_id) }
            system_results).map (fun r => [r])
        else some plant_results1
      match plant_resultsO with
      | none => .error "ZeroDivisionError: float division by zero"
      | some plant_results =>
        let total_cooling_load :=
          (space_results.map (fun sr => sr.peak_summary.peak_total_cooling)).sum
        let total_heating_load :=
          (space_results.map (fun sr => sr.peak_summary.peak_sensible_heating)).sum
        .ok
          { project_id := project.id
            project_name := project.name
            building_name := building.name
            calculation_method :=
              if project.calculation_method = "" then "heat_balance"
              else project.calculation_method
            location :=
              match building.weather_data with
              | some wd => wd.city ++ ", " ++ wd.state ++ ", " ++ wd.country
              | none => ""
            latitude :=
              match building.weather_data with
              | some wd => wd.latitude
              | none => 0
            longitude :=
              match building.weather_data with
              | some wd => wd.longitude
              | none => 0
            cooling_design_temp :=
              match building.weather_data with
              | some wd => wd.cooling_db_004
              | none => 35
            heating_design_temp :=
              match building.weather_data with
              | some wd => wd.heating_db_996
              | none => -15
            total_floor_area := total_floor_area
            total_volume := total_volume
            num_spaces := building.spaces.length
            num_zones := building.zones.length
            num_systems := building.systems.length
            space_results := space_results
            zone_results := zone_results
            system_results := system_results
            plant_results := plant_results
            total_cooling_load := total_cooling_load
            total_heating_load := total_heating_load
            cooling_w_per_m2 :=
              if 0 < total_floor_area then total_cooling_load / total_floor_area
              else 0
            heating_w_per_m2 :=
              if 0 < total_floor_area then total_heating_load / total_floor_area
              else 0 }

end Ashrae

namespace GemAI

/-! ### Geometry extractor (`gem_ai/geometry_extractor.py`)

The pixel pipeline (thresholding, contour finding) runs through an image
library and is not modelled; the embedding starts at the list of detected
rectangles in metres (the output of `_rectangles_px_to_m`) and covers
`_find_adjacent_pairs`, `_eliminate_gaps`, and the room/adjacency
construction of `_process_image` (steps 2–4).  `uuid.uuid4().hex[:8]`
draws fresh randomness once per emitted room; the draws are modelled as an
input stream `uuids : ℕ → String` consumed in room order. -/

/-- `ExtractionParams` dataclass with its defaults. -/
structure ExtractionParams where
  pixels_per_metre : ℚ := 50
  floor_height_m : ℚ := 3
  floor_z_m : ℚ := 0
  min_rect_area_px : ℕ := 500
  min_rect_width_px : ℕ := 20
  min_rect_height_px : ℕ := 20
  rectangularity : ℚ := 55/100
  max_aspect_ratio : ℚ := 10
  binary_threshold : ℕ := 200
  adaptive_block_size : ℕ := 51
  adaptive_c : ℕ := 10
  border_margin_px : ℕ := 30
  gap_threshold_m : ℚ := 1/2
  overlap_threshold_m : ℚ := 1/2
  detect_openings : Bool := true

/-- A rectangle in metres (`{"x", "y", "w", "h", "original_px"}` dict
produced by `_rectangles_px_to_m`). -/
structure RectM where
  x : ℚ := 0
  y : ℚ := 0
  w : ℚ := 0
  h : ℚ := 0
  original_px : ℕ × ℕ × ℕ × ℕ := (0, 0, 0, 0)
deriving DecidableEq, Repr

/-- A snapped rectangle (`{"x", "y", "width", "height", "original_px"}`
dict produced by `_eliminate_gaps`). -/
structure CleanRect where
  x : ℚ := 0
  y : ℚ := 0
  width : ℚ := 0
  height : ℚ := 0
  original_px : ℕ × ℕ × ℕ × ℕ := (0, 0, 0, 0)
deriving DecidableEq, Repr

/-- Adjacency direction tag (`"H"` or `"V"`). -/
inductive Direction where
  | H
  | V
deriving DecidableEq, Repr

/-- `_rectangles_px_to_m`: pixel bbox to metres with the y axis flipped. -/
def rectangles_px_to_m (p : ExtractionParams)
    (spotted : List (ℕ × ℕ × ℕ × ℕ)) (img_height_px : ℕ) : List RectM :=
  spotted.map (fun s =>
    let (x, y, w, h) := s
    { x := (x : ℚ) / p.pixels_per_metre
      y := ((img_height_px : ℚ) - y - h) / p.pixels_per_metre
      w := (w : ℚ) / p.pixels_per_metre
      h := (h : ℚ) / p.pixels_per_metre
      original_px := s })

/-- The four adjacency checks of `_find_adjacent_pairs` for one ordered
pair `(i, j)`, emitted in source order. -/
def pair_checks (p : ExtractionParams) (i j : ℕ) (r1 r2 : RectM) :
    List (Direction × ℕ × ℕ × ℚ) :=
  let y_overlap := min (r1.y + r1.h) (r2.y + r2.h) - max r1.y r2.y
  let x_overlap := min (r1.x + r1.w) (r2.x + r2.w) - max r1.x r2.x
  (if |r1.x + r1.w - r2.x| < p.gap_threshold_m
      ∧ p.overlap_threshold_m < y_overlap then
    [(Direction.H, i, j, (r1.x + r1.w + r2.x) / 2)]
  else []) ++
  (if |r1.x - (r2.x + r2.w)| < p.gap_threshold_m
      ∧ p.overlap_threshold_m < y_overlap then
    [(Direction.H, i, j, (r1.x + r2.x + r2.w) / 2)]
  else []) ++
  (if |r1.y + r1.h - r2.y| < p.gap_threshold_m
      ∧ p.overlap_threshold_m < x_overlap then
    [(Direction.V, i, j, (r1.y + r1.h + r2.y) / 2)]
  else []) ++
  (if |r1.y - (r2.y + r2.h)| < p.gap_threshold_m
      ∧ p.overlap_threshold_m < x_overlap then
    [(Direction.V, i, j, (r1.y + r2.y + r2.h) / 2)]
  else [])

/-- `_find_adjacent_pairs`: every unordered pair `i < j`, outer index
ascending, inner index ascending. -/
def find_adjacent_pairs (p : ExtractionParams) (rectangles : List RectM) :
    List (Direction × ℕ × ℕ × ℚ) :=
  rectangles.enum.flatMap (fun ir =>
    rectangles.enum.flatMap (fun jr =>
      if jr.1 ≤ ir.1 then [] else pair_checks p ir.1 jr.1 ir.2 jr.2))

/-- Which edge of a room an adjustment targets (the `"left"`, `"right"`,
`"top"`, `"bottom"` dict keys of `_eliminate_gaps`). -/
inductive Side where
  | left
  | right
  | top
  | bottom
deriving DecidableEq, Repr

/-- The one or two `adjustments[...]` dict writes produced by one adjacent
pair in `_eliminate_gaps` (in write order). -/
def writes_of (rectangles_m : List RectM) (e : Direction × ℕ × ℕ × ℚ) :
    List (ℕ × Side × ℚ) :=
  let (d, i, j, shared_pos) := e
  let r1 := rectangles_m.getD i {}
  let r2 := rectangles_m.getD j {}
  match d with
  | .H =>
    if r1.x < r2.x then [(i, Side.right, shared_pos), (j, Side.left, shared_pos)]
    else [(i, Side.left, shared_pos), (j, Side.right, shared_pos)]
  | .V =>
    if r1.y < r2.y then [(i, Side.top, shared_pos), (j, Side.bottom, shared_pos)]
    else [(i, Side.bottom, shared_pos), (j, Side.top, shared_pos)]

/-- All adjustment writes, in program order. -/
def adj_writes (rectangles_m : List RectM)
    (adjacent_pairs : List (Direction × ℕ × ℕ × ℚ)) : List (ℕ × Side × ℚ) :=
  adjacent_pairs.flatMap (writes_of rectangles_m)

/-- The final `adjustments` dict of `_eliminate_gaps`: last write to a
`(room index, side)` key wins. -/
def lookup_adjustment (ws : List (ℕ × Side × ℚ)) (i : ℕ) (s : Side) :
    Option ℚ :=
  (ws.reverse.find? (fun e => decide (e.1 = i) && decide (e.2.1 = s))).map
    (fun e => e.2.2)

/-- The per-rectangle snap of `_eliminate_gaps`: apply left, right, bottom,
top in source order (`right` and `top` recompute the extent from the
possibly already-moved opposite edge). -/
def snap_rect (ws : List (ℕ × Side × ℚ)) (i : ℕ) (rect : RectM) : CleanRect :=
  let x0 := rect.x
  let w0 := rect.w
  let xw :=
    match lookup_adjustment ws i Side.left with
    | some new_left => (new_left, (x0 + w0) - new_left)
    | none => (x0, w0)
  let w2 :=
    match lookup_adjustment ws i Side.right with
    | some new_right => new_right - xw.1
    | none => xw.2
  let y0 := rect.y
  let h0 := rect.h
  let yh :=
    match lookup_adjustment ws i Side.bottom with
    | some new_bottom => (new_bottom, (y0 + h0) - new_bottom)
    | none => (y0, h0)
  let h2 :=
    match lookup_adjustment ws i Side.top with
    | some new_top => new_top - yh.1
    | none => yh.2
  { x := xw.1, y := yh.1, width := w2, height := h2,
    original_px := rect.original_px }

/-- `_eliminate_gaps` (the returned rectangle list; the `adjustments`
dict is recoverable through `lookup_adjustment`). -/
def eliminate_gaps (rectangles_m : List RectM)
    (adjacent_pairs : List (Direction × ℕ × ℕ × ℚ)) : List CleanRect :=
  let ws := adj_writes rectangles_m adjacent_pairs
  rectangles_m.enum.map (fun ir => snap_rect ws ir.1 ir.2)

/-- `DetectedRoom` dataclass. -/
structure DetectedRoom where
  id : String
  name : String
  x : ℚ
  y : ℚ
  z : ℚ
  width : ℚ
  depth : ℚ
  height : ℚ
  area_m2 : ℚ
  volume_m3 : ℚ
  original_bbox_px : ℕ × ℕ × ℕ × ℕ
deriving DecidableEq, Repr

/-- The `f"Room_{i:03d}"` name (zero-padded to at least three digits). -/
def room_name (i : ℕ) : String :=
  let s := toString i
  let padded :=
    if s.length < 3 then String.mk (List.replicate (3 - s.length) '0') ++ s
    else s
  "Room_" ++ padded

/-- The geometric payload of `ExtractedGeometry` (debug rasters are image
data outside the model). -/
structure ExtractedGeometryCore where
  rooms : List DetectedRoom := []
  adjacencies : List (String × String) := []
  total_area_m2 : ℚ := 0
  total_volume_m3 : ℚ := 0
  pixels_per_metre : ℚ := 50
  floor_height_m : ℚ := 3
deriving DecidableEq, Repr

/-- Step 4 of `_process_image`: one `DetectedRoom` per clean rectangle, the
k-th room taking the k-th `uuid.uuid4().hex[:8]` draw and the name
`Room_00k` (1-based). -/
def build_rooms (p : ExtractionParams) (uuids : ℕ → String)
    (clean_rects : List CleanRect) : List DetectedRoom :=
  clean_rects.enum.map (fun ir =>
    let i := ir.1
    let rect := ir.2
    let area := rect.width * rect.height
    { id := "room-" ++ uuids i
      name := room_name (i + 1)
      x := rect.x
      y := rect.y
      z := p.floor_z_m
      width := rect.width
      depth := rect.height
      height := p.floor_height_m
      area_m2 := area
      volume_m3 := area * p.floor_height_m
      original_bbox_px := rect.original_px })

/-- Steps 2–4 of `_process_image`, from the metre rectangles onward:
adjacency detection, gap elimination, room construction, id-level
adjacency list, and area/volume totals. -/
def process_rects (p : ExtractionParams) (uuids : ℕ → String)
    (rects_m : List RectM) : ExtractedGeometryCore :=
  let adjacent_pairs := find_adjacent_pairs p rects_m
  let clean_rects := eliminate_gaps rects_m adjacent_pairs
  let rooms := build_rooms p uuids clean_rects
  let room_ids := rooms.map (fun r => r.id)
  let adjacencies := adjacent_pairs.filterMap (fun e =>
    if e.2.1 < room_ids.length ∧ e.2.2.1 < room_ids.length then
      some (room_ids.getD e.2.1 "", room_ids.getD e.2.2.1 "")
    else none)
  { rooms := rooms
    adjacencies := adjacencies
    total_area_m2 := (rooms.map (fun r => r.area_m2)).sum
    total_volume_m3 := (rooms.map (fun r => r.volume_m3)).sum
    pixels_per_metre := p.pixels_per_metre
    floor_height_m := p.floor_height_m }

/-- Everything of a `DetectedRoom` except its freshly drawn `id`. -/
structure RoomShape where
  name : String
  x : ℚ
  y : ℚ
  z : ℚ
  width : ℚ
  depth : ℚ
  height : ℚ
  area_m2 : ℚ
  volume_m3 : ℚ
  original_bbox_px : ℕ × ℕ × ℕ × ℕ
deriving DecidableEq, Repr

def DetectedRoom.shape (r : DetectedRoom) : RoomShape :=
  { name := r.name, x := r.x, y := r.y, z := r.z, width := r.width,
    depth := r.depth, height := r.height, area_m2 := r.area_m2,
    volume_m3 := r.volume_m3, original_bbox_px := r.original_bbox_px }

end GemAI

namespace Ashrae

/-! ### Concrete model instances used in the theorems below -/

/-- Zero solar oracles.  The concrete spaces below have no surfaces and no
fenestrations, so no solar value ever enters their loads. -/
def zeroSolarSurf : ℕ → Surface → DesignDay → ℚ := fun _ _ _ => 0

def zeroSolarInt : ℕ → DesignDay → ℚ := fun _ _ => 0

/-- A space with a single fully-sensible occupant at 100 W and zero floor
area and volume: its only cooling load is 100 W times the typical office
schedule value. -/
def spacePeople : Space :=
  { id := "s1", name := "S1",
    internal_load := some
      { people_count := 1, activity_level := 100, sensible_fraction := 1 } }

def buildingP : Building := { spaces := [spacePeople] }

def zoneP : Zone := { id := "z1", name := "Z1", space_ids := ["s1"] }

def systemP : System := { id := "sys1", name := "Sys1", zone_ids := ["z1"] }

/-- A building with zero spaces (and nothing else), and a project holding
it. -/
def buildingEmpty : Building := {}

def projectEmptySpaces : Project := { id := "p0", building := some buildingEmpty }

/-- A space with multiplier 2, 100 m² of floor area, and a single
fully-sensible occupant at 100 W (lighting and equipment densities zeroed
so the floor area contributes no load). -/
def spaceMult : Space :=
  { id := "m1", name := "M1", floor_area := 100, multiplier := 2,
    internal_load := some
      { people_count := 1, activity_level := 100, sensible_fraction := 1,
        lighting_power_density := 0, equipment_power_density := 0 } }

def building9 : Building := { spaces := [spaceMult] }

def project9 : Project := { id := "p9", building := some building9 }

def res9 : Except String ProjectLoadResult :=
  calculate_project defaultSettings zeroSolarSurf zeroSolarInt project9

def r9 : ProjectLoadResult :=
  match res9 with
  | .ok r => r
  | .error _ => {}

/-- A system whose fan and fan-motor efficiencies are zero. -/
def systemZeroFan : System :=
  { id := "sz", name := "SZ", fan_efficiency := 0, fan_motor_efficiency := 0 }

/-- A plant whose chiller COP, boiler efficiency and pump efficiency are
all zero. -/
def plantAllZero : Plant :=
  { id := "pl0", name := "PL0", chiller_cop := 0, boiler_efficiency := 0,
    pump_efficiency := 0 }

/-- A plant with zero pump efficiency but non-degenerate chiller COP and
boiler efficiency (their dataclass defaults). -/
def plantPumpZero : Plant :=
  { id := "pl1", name := "PL1", pump_efficiency := 0 }

/-- Data-model invariants of §3 of the spec restricted to the fields the
hourly-load computation multiplies without clamping: non-negative geometry,
people/lighting/equipment intensities, fractions in `[0, 1]`, and
non-negative weekday schedule values. -/
def WellFormedSpace (space : Space) (building : Building) : Prop :=
  0 ≤ space.floor_area ∧ 0 ≤ space.volume ∧
  (∀ il, space.internal_load = some il →
    0 ≤ il.people_count ∧ 0 ≤ il.people_per_area ∧ 0 ≤ il.activity_level ∧
    0 ≤ il.sensible_fraction ∧ il.sensible_fraction ≤ 1 ∧
    0 ≤ il.lighting_power_density ∧ 0 ≤ il.equipment_power_density ∧
    0 ≤ il.equipment_latent_fraction ∧ il.equipment_latent_fraction ≤ 1) ∧
  (∀ kv ∈ building.schedules, ∀ h : Fin 24, 0 ≤ kv.2.weekday_values h)

/-- An entirely default space (no internal load, zero geometry). -/
def spaceTrivial : Space := { id := "t1", name := "T1" }

end Ashrae

namespace GemAI

/-- A single unit square at the origin. -/
def rect11 : RectM := { x := 0, y := 0, w := 1, h := 1 }

def uuidStreamA : ℕ → String := fun _ => "aaaaaaaa"

def uuidStreamB : ℕ → String := fun _ => "bbbbbbbb"

def defaultParams : ExtractionParams := {}

/-- Three rooms: `rectA`'s right edge faces both `rectB` (gap 0.2 m) and
`rectC` (gap 0.4 m), both inside the default 0.5 m gap threshold, with
different gap midpoints. -/
def rectA : RectM := { x := 0, y := 0, w := 10, h := 10 }

def rectB : RectM := { x := 51/5, y := 0, w := 5, h := 4 }

def rectC : RectM := { x := 52/5, y := 6, w := 5, h := 4 }

def rects3 : List RectM := [rectA, rectB, rectC]

/-- Two rooms separated by a clean 0.3 m gap, with a single adjacency. -/
def rectD : RectM := { x := 0, y := 0, w := 10, h := 10 }

def rectE : RectM := { x := 103/10, y := 0, w := 5, h := 10 }

def rects2 : List RectM := [rectD, rectE]

end GemAI

namespace Ashrae

/-- The space result of the one-occupant space. -/
def spResultPeople : SpaceLoadResult :=
  calculate_space_loads defaultSettings zeroSolarSurf zeroSolarInt
    spacePeople buildingP

/-- A hand-written member-space result with round peak numbers, used to
instantiate zone and system roll-ups. -/
def srW : SpaceLoadResult :=
  { space_id := "w1", space_name := "W1",
    peak_summary := { peak_total_cooling := 200, peak_sensible_heating := 80 } }

end Ashrae

/-! ## Theorems -/

namespace Ashrae

theorem le_profMax (f : Fin 24 → ℚ) (i : Fin 24) : f i ≤ profMax f :=
  Finset.le_sup' f (Finset.mem_univ i)

theorem profMax_le (f : Fin 24 → ℚ) (m : ℚ) (h : ∀ i, f i ≤ m) :
    profMax f ≤ m :=
  Finset.sup'_le _ f fun i _ => h i

theorem profMax_mono (f g : Fin 24 → ℚ) (h : ∀ i, f i ≤ g i) :
    profMax f ≤ profMax g :=
  profMax_le f _ fun i => (h i).trans (le_profMax g i)

theorem profMax_eq_of (f : Fin 24 → ℚ) (i0 : Fin 24) (h : ∀ i, f i ≤ f i0) :
    profMax f = f i0 :=
  le_antisymm (profMax_le f _ h) (le_profMax f i0)

theorem peak_hour_of_eq (f : Fin 24 → ℚ) : f (peak_hour_of f) = profMax f := by
  obtain ⟨i, -, hi⟩ := Finset.exists_mem_eq_sup' (Finset.univ_nonempty) f
  have hmem : i ∈ List.finRange 24 := List.mem_finRange i
  have hp : decide (profMax f ≤ f i) = true := by
    simp [profMax, hi.ge, hi.le]
  have hsome : ((List.finRange 24).find?
      (fun i => decide (profMax f ≤ f i))).isSome := by
    rw [List.find?_isSome]
    exact ⟨i, hmem, hp⟩
  obtain ⟨j, hj⟩ := Option.isSome_iff_exists.mp hsome
  have hjp := List.find?_some hj
  have hle : profMax f ≤ f j := of_decide_eq_true hjp
  have hpk : peak_hour_of f = j := by simp [peak_hour_of, hj]
  rw [hpk]
  exact le_antisymm (le_profMax f j) hle

/-- C10: for every space without an explicit InternalLoad whose space type
is not one of the eleven keys of the default-loads table, the calculator
substitutes the office_enclosed default intensities (people sensible 5.0,
people latent 3.5, lighting 10.0, equipment 10.0 W/m²) rather than failing
or using a type-specific value. -/
theorem c10_unknown_space_type_gets_office_defaults (st : SpaceType)
    (h : st.value ∉ defaultLoadsTable.map Prod.fst) :
    get_default_internal_loads st =
      { people_sensible := 5, people_latent := 7/2, lighting := 10,
        equipment := 10 } := by
  have hfind : defaultLoadsTable.find? (fun kv => kv.1 == st.value) = none := by
    rw [List.find?_eq_none]
    intro kv hkv
    simp only [beq_iff_eq]
    intro he
    exact h (he ▸ List.mem_map_of_mem Prod.fst hkv)
  simp [get_default_internal_loads, hfind]

/-- Witness for C10 at the `mechanical` space type. -/
theorem c10_witness :
    SpaceType.mechanical.value ∉ defaultLoadsTable.map Prod.fst
    ∧ get_default_internal_loads SpaceType.mechanical =
      { people_sensible := 5, people_latent := 7/2, lighting := 10,
        equipment := 10 } :=
  ⟨by decide,
   c10_unknown_space_type_gets_office_defaults SpaceType.mechanical (by decide)⟩

/-- C7: for every zone with an explicit list of member spaces, the zone's
hourly profile at every hour equals the sum over its member spaces of the
corresponding hourly values, for total cooling, sensible cooling, latent
cooling and sensible heating. -/
theorem c7_zone_hourly_profile_is_sum (zone : Zone)
    (space_results : List SpaceLoadResult) (hour : Fin 24) :
    (calculate_zone_loads zone space_results).hourly_profile.total_cooling hour
      = (space_results.map
          (fun sr => sr.cooling_design_day_profile.total_cooling hour)).sum
    ∧ (calculate_zone_loads zone space_results).hourly_profile.sensible_cooling hour
      = (space_results.map
          (fun sr => sr.cooling_design_day_profile.sensible_cooling hour)).sum
    ∧ (calculate_zone_loads zone space_results).hourly_profile.latent_cooling hour
      = (space_results.map
          (fun sr => sr.cooling_design_day_profile.latent_cooling hour)).sum
    ∧ (calculate_zone_loads zone space_results).hourly_profile.sensible_heating hour
      = (space_results.map
          (fun sr => sr.heating_design_day_profile.sensible_heating hour)).sum :=
  ⟨rfl, rfl, rfl, rfl⟩

/-- C4 counterexample: with fan, motor, pump efficiencies, chiller COP and
boiler efficiency all zero, the fan power is 0 but `_calculate_plant_loads`
hits an unguarded division by the zero chiller COP (Python
`ZeroDivisionError`) instead of returning a chiller energy input of 0. -/
theorem c4_counterexample :
    (calculate_system_loads defaultSettings systemZeroFan []).supply_fan_power = 0
    ∧ calculate_plant_loads plantAllZero
        [calculate_system_loads defaultSettings systemZeroFan []] = none := by
  constructor
  · rfl
  · rfl

/-- C4 (amended): fan power and pump power are 0 whenever their
efficiencies are non-positive (including the all-zero case), but a zero
chiller COP makes `_calculate_plant_loads` fail with a division-by-zero
error before any energy input is produced; with a non-degenerate chiller
COP and boiler efficiency, a zero pump efficiency yields zero pump
powers. -/
theorem c4_zero_efficiencies (flow pr fe me head e : ℚ)
    (st : CalculationSettings) (system : System) (zrs : List ZoneLoadResult)
    (plant plant2 : Plant) (srs srs2 : List SystemLoadResult)
    (hfan : fe ≤ 0 ∨ me ≤ 0) (hpump : e ≤ 0)
    (hsys : system.fan_efficiency ≤ 0)
    (hcop : plant.chiller_cop = 0)
    (hcop2 : plant2.chiller_cop ≠ 0) (hboil2 : plant2.boiler_efficiency ≠ 0)
    (hpump2 : plant2.pump_efficiency ≤ 0) :
    calculate_fan_power flow pr fe me = 0
    ∧ calculate_pump_power flow head e = 0
    ∧ (calculate_system_loads st system zrs).supply_fan_power = 0
    ∧ calculate_plant_loads plant srs = none
    ∧ (calculate_plant_loads plant2 srs2).map
        (fun r => (r.chw_pump_power, r.hw_pump_power, r.cw_pump_power))
      = some (0, 0, 0) := by
  refine ⟨?_, ?_, ?_, ?_, ?_⟩
  · simp [calculate_fan_power, hfan]
  · simp [calculate_pump_power, hpump]
  · simp [calculate_system_loads, calculate_fan_power, hsys]
  · simp [calculate_plant_loads, hcop]
  · simp [calculate_plant_loads, hcop2, hboil2, calculate_pump_power, hpump2]

/-- Witness for C4 at concrete zero efficiencies. -/
theorem c4_witness :
    calculate_fan_power 1 1000 0 0 = 0
    ∧ calculate_pump_power 1 150 0 = 0
    ∧ (calculate_system_loads defaultSettings systemZeroFan []).supply_fan_power = 0
    ∧ calculate_plant_loads plantAllZero [] = none
    ∧ (calculate_plant_loads plantPumpZero []).map
        (fun r => (r.chw_pump_power, r.hw_pump_power, r.cw_pump_power))
      = some (0, 0, 0) :=
  c4_zero_efficiencies 1 1000 0 0 150 0 defaultSettings systemZeroFan []
    plantAllZero plantPumpZero [] []
    (Or.inl le_rfl) le_rfl le_rfl rfl
    (by norm_num [plantPumpZero]) (by norm_num [plantPumpZero])
    (by norm_num [plantPumpZero])

end Ashrae

namespace Ashrae

/-- C1 counterexample: a project whose building has zero spaces does NOT
fail — `calculate_project` returns a normal result with empty space results
and a zero total cooling load, contradicting the claimed EmptyModel
error. -/
theorem c1_counterexample :
    (calculate_project defaultSettings zeroSolarSurf zeroSolarInt
        projectEmptySpaces).isOk = true
    ∧ (calculate_project defaultSettings zeroSolarSurf zeroSolarInt
        projectEmptySpaces).toOption.map (fun r => r.total_cooling_load)
      = some 0
    ∧ (calculate_project defaultSettings zeroSolarSurf zeroSolarInt
        projectEmptySpaces).toOption.map (fun r => r.space_results)
      = some [] := by
  refine ⟨rfl, ?_, rfl⟩
  rfl

/-- C1 (amended): `calculate_project` raises only when the project has no
building; for a building with zero spaces (and no plants — a degenerate
plant with zero chiller COP would raise a division error instead) it
returns an ok result with empty space results and zero total loads. -/
theorem c1_zero_spaces_returns_zero_result (st : CalculationSettings)
    (o1 : ℕ → Surface → DesignDay → ℚ) (o2 : ℕ → DesignDay → ℚ)
    (project : Project) (building : Building)
    (hb : project.building = some building) (hs : building.spaces = [])
    (hp : building.plants = []) :
    (calculate_project st o1 o2 project).isOk = true
    ∧ (calculate_project st o1 o2 project).toOption.map
        (fun r => r.total_cooling_load) = some 0
    ∧ (calculate_project st o1 o2 project).toOption.map
        (fun r => r.total_heating_load) = some 0
    ∧ (calculate_project st o1 o2 project).toOption.map
        (fun r => r.space_results) = some [] := by
  simp only [calculate_project, hb, hs, hp]
  simp only [List.map_nil, List.mapM_nil, List.isEmpty_nil, Bool.not_true,
    Bool.and_false, Bool.false_and, Bool.false_eq_true, if_false,
    List.sum_nil, List.isEmpty_eq_true, pure]
  rcases hz : building.zones with _ | ⟨z, zs⟩ <;>
    rcases hsy : building.systems with _ | ⟨sy, sys⟩ <;>
      simp only [hz, hsy, List.map_nil, List.map_cons, List.isEmpty_nil,
        List.isEmpty_cons, Bool.not_true, Bool.not_false, Bool.and_true,
        Bool.and_false, Bool.true_and, Bool.false_and] <;>
      first
      | exact ⟨rfl, rfl, rfl, rfl⟩
      | (simp only [Bool.false_eq_true, if_false, calculate_plant_loads]
         rw [if_neg (show ¬((6:ℚ) = 0) by norm_num),
           if_neg (show ¬((85/100:ℚ) = 0) by norm_num)]
         exact ⟨rfl, rfl, rfl, rfl⟩)

end Ashrae

namespace Ashrae

/-- Witness for C1 (amended) at the concrete empty-spaces project. -/
theorem c1_witness :
    (calculate_project defaultSettings zeroSolarSurf zeroSolarInt
        projectEmptySpaces).isOk = true
    ∧ (calculate_project defaultSettings zeroSolarSurf zeroSolarInt
        projectEmptySpaces).toOption.map (fun r => r.total_cooling_load)
      = some 0
    ∧ (calculate_project defaultSettings zeroSolarSurf zeroSolarInt
        projectEmptySpaces).toOption.map (fun r => r.total_heating_load)
      = some 0
    ∧ (calculate_project defaultSettings zeroSolarSurf zeroSolarInt
        projectEmptySpaces).toOption.map (fun r => r.space_results)
      = some [] :=
  c1_zero_spaces_returns_zero_result defaultSettings zeroSolarSurf
    zeroSolarInt projectEmptySpaces buildingEmpty rfl rfl rfl

end Ashrae

namespace GemAI

/-- Two `filterMap`s whose functions agree on definedness produce lists of
the same length. -/
theorem filterMap_length_congr {α β γ : Type} (l : List α)
    (f : α → Option β) (g : α → Option γ)
    (h : ∀ a ∈ l, (f a).isSome = (g a).isSome) :
    (l.filterMap f).length = (l.filterMap g).length := by
  induction l with
  | nil => rfl
  | cons a t ih =>
    have ha := h a (List.mem_cons_self a t)
    have ht : ∀ x ∈ t, (f x).isSome = (g x).isSome :=
      fun x hx => h x (List.mem_cons_of_mem a hx)
    match hf : f a, hg : g a with
    | some b, some c => simp [List.filterMap_cons, hf, hg, ih ht]
    | some b, none => rw [hf, hg] at ha; simp at ha
    | none, some c => rw [hf, hg] at ha; simp at ha
    | none, none => simp [List.filterMap_cons, hf, hg, ih ht]

/-- The id-stripped rooms depend only on the clean rectangles, not on the
uuid stream. -/
theorem build_rooms_shape (p : ExtractionParams) (u : ℕ → String)
    (l : List CleanRect) :
    (build_rooms p u l).map DetectedRoom.shape
      = l.enum.map (fun ir =>
          ({ name := room_name (ir.1 + 1), x := ir.2.x, y := ir.2.y,
             z := p.floor_z_m, width := ir.2.width, depth := ir.2.height,
             height := p.floor_height_m,
             area_m2 := ir.2.width * ir.2.height,
             volume_m3 := ir.2.width * ir.2.height * p.floor_height_m,
             original_bbox_px := ir.2.original_px } : RoomShape)) := by
  simp only [build_rooms, List.map_map]
  congr 1

/-- Room areas depend only on the clean rectangles. -/
theorem build_rooms_area (p : ExtractionParams) (u : ℕ → String)
    (l : List CleanRect) :
    (build_rooms p u l).map (fun r => r.area_m2)
      = l.map (fun c => c.width * c.height) := by
  simp only [build_rooms, List.map_map]
  calc (l.enum.map ((fun r => r.area_m2) ∘ fun ir =>
          ({ id := "room-" ++ u ir.1, name := room_name (ir.1 + 1),
             x := ir.2.x, y := ir.2.y, z := p.floor_z_m, width := ir.2.width,
             depth := ir.2.height, height := p.floor_height_m,
             area_m2 := ir.2.width * ir.2.height,
             volume_m3 := ir.2.width * ir.2.height * p.floor_height_m,
             original_bbox_px := ir.2.original_px } : DetectedRoom)))
      = l.enum.map ((fun c => c.width * c.height) ∘ Prod.snd) := rfl
    _ = (l.enum.map Prod.snd).map (fun c => c.width * c.height) := by
          rw [List.map_map]
    _ = l.map (fun c => c.width * c.height) := by rw [List.enum_map_snd]

/-- Room volumes depend only on the clean rectangles. -/
theorem build_rooms_volume (p : ExtractionParams) (u : ℕ → String)
    (l : List CleanRect) :
    (build_rooms p u l).map (fun r => r.volume_m3)
      = l.map (fun c => c.width * c.height * p.floor_height_m) := by
  simp only [build_rooms, List.map_map]
  calc (l.enum.map ((fun r => r.volume_m3) ∘ fun ir =>
          ({ id := "room-" ++ u ir.1, name := room_name (ir.1 + 1),
             x := ir.2.x, y := ir.2.y, z := p.floor_z_m, width := ir.2.width,
             depth := ir.2.height, height := p.floor_height_m,
             area_m2 := ir.2.width * ir.2.height,
             volume_m3 := ir.2.width * ir.2.height * p.floor_height_m,
             original_bbox_px := ir.2.original_px } : DetectedRoom)))
      = l.enum.map ((fun c => c.width * c.height * p.floor_height_m) ∘ Prod.snd) := rfl
    _ = (l.enum.map Prod.snd).map (fun c => c.width * c.height * p.floor_height_m) := by
          rw [List.map_map]
    _ = l.map (fun c => c.width * c.height * p.floor_height_m) := by
          rw [List.enum_map_snd]

/-- C5 counterexample: the same rectangle list processed twice with
different `uuid4` draws yields different room-id lists, so two runs of the
extractor are not byte-identical. -/
theorem c5_counterexample :
    (process_rects defaultParams uuidStreamA [rect11]).rooms.map
        (fun r => r.id)
      ≠ (process_rects defaultParams uuidStreamB [rect11]).rooms.map
        (fun r => r.id) := by
  decide

/-- C5 (amended): two runs on the same rectangles with the same parameters
agree on everything except the freshly drawn room ids: the id-stripped room
lists, the area and volume totals, and the number of recorded adjacencies
are identical; only the room ids (and hence the id-valued adjacency pairs)
vary with the uuid draws. -/
theorem c5_deterministic_up_to_room_ids (p : ExtractionParams)
    (u1 u2 : ℕ → String) (rects : List RectM) :
    (process_rects p u1 rects).rooms.map DetectedRoom.shape
      = (process_rects p u2 rects).rooms.map DetectedRoom.shape
    ∧ (process_rects p u1 rects).total_area_m2
      = (process_rects p u2 rects).total_area_m2
    ∧ (process_rects p u1 rects).total_volume_m3
      = (process_rects p u2 rects).total_volume_m3
    ∧ (process_rects p u1 rects).adjacencies.length
      = (process_rects p u2 rects).adjacencies.length := by
  refine ⟨?_, ?_, ?_, ?_⟩
  · show (build_rooms p u1 _).map DetectedRoom.shape
        = (build_rooms p u2 _).map DetectedRoom.shape
    rw [build_rooms_shape, build_rooms_shape]
  · show ((build_rooms p u1 _).map (fun r => r.area_m2)).sum
        = ((build_rooms p u2 _).map (fun r => r.area_m2)).sum
    rw [build_rooms_area, build_rooms_area]
  · show ((build_rooms p u1 _).map (fun r => r.volume_m3)).sum
        = ((build_rooms p u2 _).map (fun r => r.volume_m3)).sum
    rw [build_rooms_volume, build_rooms_volume]
  simp only [process_rects]
  apply filterMap_length_congr
  intro e he
  simp only [build_rooms, List.length_map, apply_ite Option.isSome,
    Option.isSome_some, Option.isSome_none]

end GemAI

namespace Ashrae

theorem getD_le_of_forall (l : List ℚ) (d c : ℚ) (hd : d ≤ c)
    (hl : ∀ x ∈ l, x ≤ c) : ∀ n : ℕ, l.getD n d ≤ c := by
  induction l with
  | nil => intro n; simpa [List.getD] using hd
  | cons a t ih =>
    intro n
    cases n with
    | zero => simpa using hl a (List.mem_cons_self a t)
    | succ m =>
      simpa using ih (fun x hx => hl x (List.mem_cons_of_mem a hx)) m

theorem le_getD_of_forall (l : List ℚ) (d c : ℚ) (hd : c ≤ d)
    (hl : ∀ x ∈ l, c ≤ x) : ∀ n : ℕ, c ≤ l.getD n d := by
  induction l with
  | nil => intro n; simpa [List.getD] using hd
  | cons a t ih =>
    intro n
    cases n with
    | zero => simpa using hl a (List.mem_cons_self a t)
    | succ m =>
      simpa using ih (fun x hx => hl x (List.mem_cons_of_mem a hx)) m

theorem typical_schedule_nonneg (h : ℕ) : 0 ≤ get_typical_schedule_value h := by
  refine le_getD_of_forall _ _ _ le_rfl ?_ h
  intro x hx
  fin_cases hx <;> norm_num

theorem typical_schedule_le_one (h : ℕ) : get_typical_schedule_value h ≤ 1 := by
  refine getD_le_of_forall _ _ _ (by norm_num) ?_ h
  intro x hx
  fin_cases hx <;> norm_num

theorem typical_schedule_at_9 : get_typical_schedule_value 9 = 1 := by
  simp [get_typical_schedule_value, typicalScheduleList]

set_option maxHeartbeats 2000000 in
/-- Projections of `_calculate_space_loads`: the peak summary fields and
the supply airflow, expressed through the hourly series. -/
theorem space_result_peaks (st : CalculationSettings)
    (o1 : ℕ → Surface → DesignDay → ℚ) (o2 : ℕ → DesignDay → ℚ)
    (space : Space) (building : Building) :
    (calculate_space_loads st o1 o2 space building).peak_summary.peak_sensible_cooling
      = profMax (spaceSens st o1 o2 space building)
    ∧ (calculate_space_loads st o1 o2 space building).peak_summary.peak_total_cooling
      = profMax (fun h => spaceSens st o1 o2 space building h
          + spaceLat st o1 o2 space building h)
    ∧ (calculate_space_loads st o1 o2 space building).peak_summary.peak_latent_cooling
      = spaceLat st o1 o2 space building
          (peak_hour_of (fun h => spaceSens st o1 o2 space building h
            + spaceLat st o1 o2 space building h))
    ∧ (calculate_space_loads st o1 o2 space building).peak_summary.peak_sensible_heating
      = profMax (spaceHeat st space building)
    ∧ (calculate_space_loads st o1 o2 space building).supply_airflow_cooling
      = calculate_supply_airflow
          ((calculate_space_loads st o1 o2 space building).peak_summary.peak_sensible_cooling)
          st.cooling_supply_air_temp st.indoor_cooling_temp := by
  refine ⟨?_, ?_, ?_, ?_, rfl⟩
  · show (space_peak_summary st o1 o2 space building).peak_sensible_cooling = _
    unfold space_peak_summary
    split <;> rfl
  · show (space_peak_summary st o1 o2 space building).peak_total_cooling = _
    unfold space_peak_summary
    split <;> rfl
  · show (space_peak_summary st o1 o2 space building).peak_latent_cooling = _
    unfold space_peak_summary
    split <;> rfl
  · show (space_peak_summary st o1 o2 space building).peak_sensible_heating = _
    unfold space_peak_summary
    split <;> rfl

/-- The cooling design-day profile stored in the space result is the pair
of hourly series. -/
theorem space_result_profile (st : CalculationSettings)
    (o1 : ℕ → Surface → DesignDay → ℚ) (o2 : ℕ → DesignDay → ℚ)
    (space : Space) (building : Building) (h : Fin 24) :
    (calculate_space_loads st o1 o2 space building).cooling_design_day_profile.sensible_cooling h
      = spaceSens st o1 o2 space building h
    ∧ (calculate_space_loads st o1 o2 space building).cooling_design_day_profile.latent_cooling h
      = spaceLat st o1 o2 space building h
    ∧ (calculate_space_loads st o1 o2 space building).cooling_design_day_profile.total_cooling h
      = spaceSens st o1 o2 space building h + spaceLat st o1 o2 space building h
    ∧ (calculate_space_loads st o1 o2 space building).heating_design_day_profile.sensible_heating h
      = spaceHeat st space building h :=
  ⟨rfl, rfl, rfl, rfl⟩

theorem ite_lt_one_eq_max (d : ℚ) : (if d < 1 then (1:ℚ) else d) = max 1 d := by
  rcases le_or_lt 1 d with hle | hlt
  · rw [if_neg (not_lt.mpr hle), max_eq_right hle]
  · rw [if_pos hlt, max_eq_left hlt.le]

/-- Hourly sensible sum of the one-occupant space: 100 W times the typical
office schedule, at every hour, outdoor temperature and design day. -/
theorem spacePeople_hourly_sens (T : ℚ) (h : ℕ) (dd : DesignDay) :
    ((calculate_hourly_loads defaultSettings zeroSolarSurf zeroSolarInt
        spacePeople buildingP T h dd true).map
      (fun c => c.2.sensible_cooling)).sum
      = 100 * get_typical_schedule_value h := by
  simp [calculate_hourly_loads, spacePeople, buildingP, defaultSettings,
    get_schedule_value, zeroSolarSurf, zeroSolarInt]

/-- Hourly latent sum of the one-occupant space: zero. -/
theorem spacePeople_hourly_lat (T : ℚ) (h : ℕ) (dd : DesignDay) :
    ((calculate_hourly_loads defaultSettings zeroSolarSurf zeroSolarInt
        spacePeople buildingP T h dd true).map
      (fun c => c.2.latent_cooling)).sum = 0 := by
  simp [calculate_hourly_loads, spacePeople, buildingP, defaultSettings,
    get_schedule_value, zeroSolarSurf, zeroSolarInt]

theorem spacePeople_sens_eq :
    spaceSens defaultSettings zeroSolarSurf zeroSolarInt spacePeople buildingP
      = fun h : Fin 24 => 100 * get_typical_schedule_value h :=
  funext fun h => spacePeople_hourly_sens _ h _

theorem spacePeople_lat_eq :
    spaceLat defaultSettings zeroSolarSurf zeroSolarInt spacePeople buildingP
      = fun _ : Fin 24 => 0 :=
  funext fun h => spacePeople_hourly_lat _ h _

theorem profMax_schedule_100 :
    profMax (fun h : Fin 24 => 100 * get_typical_schedule_value h) = 100 := by
  have key : ∀ i : Fin 24,
      (fun h : Fin 24 => 100 * get_typical_schedule_value h) i
        ≤ (fun h : Fin 24 => 100 * get_typical_schedule_value h) ⟨9, by omega⟩ := by
    intro i
    show (100:ℚ) * get_typical_schedule_value (i : ℕ)
      ≤ 100 * get_typical_schedule_value 9
    rw [typical_schedule_at_9]
    nlinarith [typical_schedule_le_one (i : ℕ), typical_schedule_nonneg (i : ℕ)]
  rw [profMax_eq_of _ ⟨9, by omega⟩ key]
  show (100:ℚ) * get_typical_schedule_value 9 = 100
  rw [typical_schedule_at_9]
  norm_num

theorem spacePeople_peak_sensible :
    spResultPeople.peak_summary.peak_sensible_cooling = 100 := by
  rw [show spResultPeople = calculate_space_loads defaultSettings zeroSolarSurf
      zeroSolarInt spacePeople buildingP from rfl,
    (space_result_peaks defaultSettings zeroSolarSurf zeroSolarInt spacePeople
      buildingP).1, spacePeople_sens_eq, profMax_schedule_100]

theorem spacePeople_peak_total :
    spResultPeople.peak_summary.peak_total_cooling = 100 := by
  rw [show spResultPeople = calculate_space_loads defaultSettings zeroSolarSurf
      zeroSolarInt spacePeople buildingP from rfl,
    (space_result_peaks defaultSettings zeroSolarSurf zeroSolarInt spacePeople
      buildingP).2.1, spacePeople_sens_eq, spacePeople_lat_eq]
  simpa using profMax_schedule_100

theorem spacePeople_profile_total (h : Fin 24) :
    spResultPeople.cooling_design_day_profile.total_cooling h
      = 100 * get_typical_schedule_value h := by
  rw [show spResultPeople = calculate_space_loads defaultSettings zeroSolarSurf
      zeroSolarInt spacePeople buildingP from rfl,
    (space_result_profile defaultSettings zeroSolarSurf zeroSolarInt spacePeople
      buildingP h).2.2.1, spacePeople_sens_eq, spacePeople_lat_eq]
  simp

end Ashrae

namespace Ashrae

theorem zone_peak_total_eq (zone : Zone) (srs : List SpaceLoadResult) :
    (calculate_zone_loads zone srs).peak_summary.peak_total_cooling
      = (srs.map (fun sr => sr.peak_summary.peak_total_cooling)).sum := by
  simp only [calculate_zone_loads]
  split <;> rfl

theorem zone_peak_heating_eq (zone : Zone) (srs : List SpaceLoadResult) :
    (calculate_zone_loads zone srs).peak_summary.peak_sensible_heating
      = (srs.map (fun sr => sr.peak_summary.peak_sensible_heating)).sum := by
  simp only [calculate_zone_loads]
  split <;> rfl

theorem zone_sized_cooling_eq (zone : Zone) (srs : List SpaceLoadResult) :
    (calculate_zone_loads zone srs).sized_cooling_load
      = (srs.map (fun sr => sr.peak_summary.peak_total_cooling)).sum
        * zone.cooling_sizing_factor := rfl

theorem zone_sized_heating_eq (zone : Zone) (srs : List SpaceLoadResult) :
    (calculate_zone_loads zone srs).sized_heating_load
      = (srs.map (fun sr => sr.peak_summary.peak_sensible_heating)).sum
        * zone.heating_sizing_factor := rfl

theorem zone_profile_total_eq (zone : Zone) (srs : List SpaceLoadResult)
    (hour : Fin 24) :
    (calculate_zone_loads zone srs).hourly_profile.total_cooling hour
      = (srs.map
          (fun sr => sr.cooling_design_day_profile.total_cooling hour)).sum :=
  rfl

theorem system_diversity_cooling_eq (st : CalculationSettings)
    (system : System) (zrs : List ZoneLoadResult) :
    (calculate_system_loads st system zrs).cooling_diversity_factor
      = if 0 < (zrs.map (fun zr => zr.sized_cooling_load)).sum then
          (calculate_system_loads st system zrs).block_cooling_total
            / (zrs.map (fun zr => zr.sized_cooling_load)).sum
        else 1 := rfl

theorem system_diversity_heating_eq (st : CalculationSettings)
    (system : System) (zrs : List ZoneLoadResult) :
    (calculate_system_loads st system zrs).heating_diversity_factor
      = if 0 < (zrs.map (fun zr => zr.sized_heating_load)).sum then
          (calculate_system_loads st system zrs).block_heating
            / (zrs.map (fun zr => zr.sized_heating_load)).sum
        else 1 := rfl

theorem system_block_cooling_eq (st : CalculationSettings)
    (system : System) (zrs : List ZoneLoadResult) :
    (calculate_system_loads st system zrs).block_cooling_total
      = profMax (fun hour =>
          (zrs.map (fun zr => zr.hourly_profile.total_cooling hour)).sum) :=
  rfl

theorem system_block_heating_eq (st : CalculationSettings)
    (system : System) (zrs : List ZoneLoadResult) :
    (calculate_system_loads st system zrs).block_heating
      = profMax (fun hour =>
          (zrs.map (fun zr => zr.hourly_profile.sensible_heating hour)).sum) :=
  rfl

/-- C3 (amended): the supply airflow divides the sensible load by
`cp_air · ΔT` and then additionally by the air density `ρ_air = 1.2`:
`supply_airflow_cooling = peak_sensible / (cp_air · max(1, |T_room −
T_supply|)) / ρ_air`; with the default 24 °C room and 13 °C supply this is
`peak_sensible / (1006 · 11) / 1.2`, not `peak_sensible / (1006 · 11)`. -/
theorem c3_supply_airflow_divides_by_density (st : CalculationSettings)
    (o1 : ℕ → Surface → DesignDay → ℚ) (o2 : ℕ → DesignDay → ℚ)
    (space : Space) (building : Building) :
    (calculate_space_loads st o1 o2 space building).supply_airflow_cooling
      = (calculate_space_loads st o1 o2 space building).peak_summary.peak_sensible_cooling
        / (CP_AIR * max 1 |st.indoor_cooling_temp - st.cooling_supply_air_temp|)
        / RHO_AIR
    ∧ (calculate_space_loads defaultSettings o1 o2 space building).supply_airflow_cooling
      = (calculate_space_loads defaultSettings o1 o2 space building).peak_summary.peak_sensible_cooling
        / (1006 * 11) / (6/5) := by
  constructor
  · rw [(space_result_peaks st o1 o2 space building).2.2.2.2]
    simp only [calculate_supply_airflow]
    rw [ite_lt_one_eq_max]
  · rw [(space_result_peaks defaultSettings o1 o2 space building).2.2.2.2]
    simp only [calculate_supply_airflow]
    rw [ite_lt_one_eq_max]
    rw [show defaultSettings.indoor_cooling_temp
        - defaultSettings.cooling_supply_air_temp = (11:ℚ) from by norm_num [defaultSettings]]
    rw [show |(11:ℚ)| = 11 from abs_of_nonneg (by norm_num)]
    rw [show max (1:ℚ) 11 = 11 from max_eq_right (by norm_num)]
    rfl

/-- C3 counterexample: for the one-occupant space the computed supply
airflow is `100 / (1006·11·1.2)`, not the claimed
`100 / (1006·|24−13|)`. -/
theorem c3_counterexample :
    ¬ (spResultPeople.supply_airflow_cooling
        = spResultPeople.peak_summary.peak_sensible_cooling
          / (CP_AIR * |(24:ℚ) - 13|)) := by
  intro hEq
  have h2 := (space_result_peaks defaultSettings zeroSolarSurf zeroSolarInt
    spacePeople buildingP).2.2.2.2
  rw [show calculate_space_loads defaultSettings zeroSolarSurf zeroSolarInt
      spacePeople buildingP = spResultPeople from rfl] at h2
  rw [spacePeople_peak_sensible] at h2 hEq
  rw [h2] at hEq
  simp only [calculate_supply_airflow] at hEq
  rw [show (24:ℚ) - 13 = 11 from by norm_num,
    show |(11:ℚ)| = 11 from abs_of_nonneg (by norm_num)] at hEq
  rw [show defaultSettings.indoor_cooling_temp
      - defaultSettings.cooling_supply_air_temp = (11:ℚ) from by
        norm_num [defaultSettings]] at hEq
  rw [show |(11:ℚ)| = 11 from abs_of_nonneg (by norm_num),
    if_neg (by norm_num : ¬((11:ℚ) < 1))] at hEq
  rw [CP_AIR, RHO_AIR] at hEq
  norm_num at hEq

end Ashrae

namespace Ashrae

/-- C2 (amended): the diversity denominator is the sum of the zones'
SIZED loads (each zone's summed member-space peaks times its sizing
factor), not the plain sum of zone peaks: when that sized sum is positive,
cooling_diversity_factor = block_cooling_total / Σ_z (Σ_s peak_s) ·
sizing_z, where block_cooling_total is the maximum over the 24 hours of
the summed zone hourly total-cooling profiles; analogously for heating. -/
theorem c2_diversity_denominator_is_sized (st : CalculationSettings)
    (system : System) (pairs : List (Zone × List SpaceLoadResult))
    (hc : 0 < (pairs.map (fun zp =>
        (zp.2.map (fun sr => sr.peak_summary.peak_total_cooling)).sum
          * zp.1.cooling_sizing_factor)).sum)
    (hh : 0 < (pairs.map (fun zp =>
        (zp.2.map (fun sr => sr.peak_summary.peak_sensible_heating)).sum
          * zp.1.heating_sizing_factor)).sum) :
    (calculate_system_loads st system
        (pairs.map (fun zp => calculate_zone_loads zp.1 zp.2))).block_cooling_total
      = profMax (fun hour => (pairs.map (fun zp =>
          (calculate_zone_loads zp.1 zp.2).hourly_profile.total_cooling hour)).sum)
    ∧ (calculate_system_loads st system
        (pairs.map (fun zp => calculate_zone_loads zp.1 zp.2))).cooling_diversity_factor
      = (calculate_system_loads st system
          (pairs.map (fun zp => calculate_zone_loads zp.1 zp.2))).block_cooling_total
        / (pairs.map (fun zp =>
            (zp.2.map (fun sr => sr.peak_summary.peak_total_cooling)).sum
              * zp.1.cooling_sizing_factor)).sum
    ∧ (calculate_system_loads st system
        (pairs.map (fun zp => calculate_zone_loads zp.1 zp.2))).heating_diversity_factor
      = (calculate_system_loads st system
          (pairs.map (fun zp => calculate_zone_loads zp.1 zp.2))).block_heating
        / (pairs.map (fun zp =>
            (zp.2.map (fun sr => sr.peak_summary.peak_sensible_heating)).sum
              * zp.1.heating_sizing_factor)).sum := by
  have hsumc : ((pairs.map (fun zp => calculate_zone_loads zp.1 zp.2)).map
      (fun zr => zr.sized_cooling_load)).sum
      = (pairs.map (fun zp =>
          (zp.2.map (fun sr => sr.peak_summary.peak_total_cooling)).sum
            * zp.1.cooling_sizing_factor)).sum := by
    rw [List.map_map]
    rfl
  have hsumh : ((pairs.map (fun zp => calculate_zone_loads zp.1 zp.2)).map
      (fun zr => zr.sized_heating_load)).sum
      = (pairs.map (fun zp =>
          (zp.2.map (fun sr => sr.peak_summary.peak_sensible_heating)).sum
            * zp.1.heating_sizing_factor)).sum := by
    rw [List.map_map]
    rfl
  refine ⟨?_, ?_, ?_⟩
  · rw [system_block_cooling_eq]
    exact congrArg profMax (funext fun hour => by rw [List.map_map]; rfl)
  · rw [system_diversity_cooling_eq, hsumc, if_pos hc]
  · rw [system_diversity_heating_eq, hsumh, if_pos hh]

/-- Witness for C2 (amended) at one zone with a hand-written member-space
result with peak cooling 200 W and peak heating 80 W. -/
theorem c2_witness :
    (calculate_system_loads defaultSettings systemP
        ([(zoneP, [srW])].map (fun zp => calculate_zone_loads zp.1 zp.2))).block_cooling_total
      = profMax (fun hour => ([(zoneP, [srW])].map (fun zp =>
          (calculate_zone_loads zp.1 zp.2).hourly_profile.total_cooling hour)).sum)
    ∧ (calculate_system_loads defaultSettings systemP
        ([(zoneP, [srW])].map (fun zp => calculate_zone_loads zp.1 zp.2))).cooling_diversity_factor
      = (calculate_system_loads defaultSettings systemP
          ([(zoneP, [srW])].map (fun zp => calculate_zone_loads zp.1 zp.2))).block_cooling_total
        / ([(zoneP, [srW])].map (fun zp =>
            (zp.2.map (fun sr => sr.peak_summary.peak_total_cooling)).sum
              * zp.1.cooling_sizing_factor)).sum
    ∧ (calculate_system_loads defaultSettings systemP
        ([(zoneP, [srW])].map (fun zp => calculate_zone_loads zp.1 zp.2))).heating_diversity_factor
      = (calculate_system_loads defaultSettings systemP
          ([(zoneP, [srW])].map (fun zp => calculate_zone_loads zp.1 zp.2))).block_heating
        / ([(zoneP, [srW])].map (fun zp =>
            (zp.2.map (fun sr => sr.peak_summary.peak_sensible_heating)).sum
              * zp.1.heating_sizing_factor)).sum :=
  c2_diversity_denominator_is_sized defaultSettings systemP [(zoneP, [srW])]
    (by norm_num [zoneP, srW]) (by norm_num [zoneP, srW])

/-- C2 counterexample: a one-zone system over the one-occupant space has a
positive non-coincident sum of zone peak cooling loads (100 W), yet its
cooling diversity factor is 100/115 (the denominator is the zone's sized
load 100·1.15), not block/100. -/
theorem c2_counterexample :
    0 < (calculate_zone_loads zoneP [spResultPeople]).peak_summary.peak_total_cooling
    ∧ (calculate_system_loads defaultSettings systemP
        [calculate_zone_loads zoneP [spResultPeople]]).cooling_diversity_factor
      ≠ (calculate_system_loads defaultSettings systemP
          [calculate_zone_loads zoneP [spResultPeople]]).block_cooling_total
        / (calculate_zone_loads zoneP [spResultPeople]).peak_summary.peak_total_cooling := by
  have hzpeak : (calculate_zone_loads zoneP
      [spResultPeople]).peak_summary.peak_total_cooling = 100 := by
    rw [zone_peak_total_eq]
    simp [spacePeople_peak_total]
  have hsized : (calculate_zone_loads zoneP [spResultPeople]).sized_cooling_load
      = 115 := by
    rw [zone_sized_cooling_eq]
    simp only [List.map_cons, List.map_nil, List.sum_cons, List.sum_nil,
      spacePeople_peak_total]
    norm_num [zoneP]
  have hprofile : (fun hour : Fin 24 =>
      ([calculate_zone_loads zoneP [spResultPeople]].map
        (fun zr => zr.hourly_profile.total_cooling hour)).sum)
      = fun hour : Fin 24 => 100 * get_typical_schedule_value hour := by
    funext hour
    simp only [List.map_cons, List.map_nil, List.sum_cons, List.sum_nil,
      zone_profile_total_eq, spacePeople_profile_total]
    ring
  have hblock : (calculate_system_loads defaultSettings systemP
      [calculate_zone_loads zoneP [spResultPeople]]).block_cooling_total = 100 := by
    rw [system_block_cooling_eq, hprofile, profMax_schedule_100]
  have hdiv : (calculate_system_loads defaultSettings systemP
      [calculate_zone_loads zoneP [spResultPeople]]).cooling_diversity_factor
      = 100 / 115 := by
    rw [system_diversity_cooling_eq]
    simp only [List.map_cons, List.map_nil, List.sum_cons, List.sum_nil, hsized]
    rw [if_pos (by norm_num), hblock]
    norm_num
  refine ⟨by rw [hzpeak]; norm_num, ?_⟩
  rw [hdiv, hblock, hzpeak]
  norm_num

end Ashrae

namespace Ashrae

theorem get_schedule_value_nonneg (sid : Option String) (h : ℕ)
    (building : Building)
    (hsch : ∀ kv ∈ building.schedules, ∀ i : Fin 24, 0 ≤ kv.2.weekday_values i) :
    0 ≤ get_schedule_value sid h building := by
  rcases sid with _ | s
  · simp only [get_schedule_value]
    exact typical_schedule_nonneg h
  · simp only [get_schedule_value]
    rcases hf : building.schedules.find? (fun kv => kv.1 == s) with _ | kv <;>
      rw [hf]
    · exact typical_schedule_nonneg h
    · simp only [Schedule.get_value]
      rw [if_neg (by decide), if_neg (by decide)]
      exact hsch kv (List.mem_of_find?_eq_some hf) _

theorem get_default_internal_loads_nonneg (t : SpaceType) :
    0 ≤ (get_default_internal_loads t).people_sensible
    ∧ 0 ≤ (get_default_internal_loads t).people_latent
    ∧ 0 ≤ (get_default_internal_loads t).lighting
    ∧ 0 ≤ (get_default_internal_loads t).equipment := by
  have hmem : get_default_internal_loads t ∈ defaultLoadsTable.map Prod.snd
      ∨ get_default_internal_loads t
          = ({ people_sensible := 5, people_latent := 7/2, lighting := 10,
               equipment := 10 } : DefaultLoads) := by
    unfold get_default_internal_loads
    rcases hf : defaultLoadsTable.find? (fun kv => kv.1 == t.value) with _ | kv <;>
      rw [hf]
    · right; rfl
    · left
      exact List.mem_map_of_mem Prod.snd (List.mem_of_find?_eq_some hf)
  rcases hmem with hm | he
  · simp only [defaultLoadsTable, List.map_cons, List.map_nil] at hm
    generalize get_default_internal_loads t = d at hm ⊢
    fin_cases hm <;> norm_num
  · rw [he]
    norm_num

set_option maxHeartbeats 4000000 in
/-- Every load component produced by `_calculate_hourly_loads` in cooling
mode has non-negative sensible and latent parts, given the data-model
invariants: the unclamped people/lighting/equipment products are products
of non-negative factors, and every other component is clamped by
`max 0`. -/
theorem hourly_components_nonneg (st : CalculationSettings)
    (o1 : ℕ → Surface → DesignDay → ℚ) (o2 : ℕ → DesignDay → ℚ)
    (space : Space) (building : Building) (T : ℚ) (h : ℕ) (dd : DesignDay)
    (hw : WellFormedSpace space building) :
    ∀ c ∈ calculate_hourly_loads st o1 o2 space building T h dd true,
      0 ≤ c.2.sensible_cooling ∧ 0 ≤ c.2.latent_cooling := by
  obtain ⟨hA, hV, hil, hsch⟩ := hw
  have hsched : ∀ sid, 0 ≤ get_schedule_value sid h building :=
    fun sid => get_schedule_value_nonneg sid h building hsch
  have htyp : 0 ≤ get_typical_schedule_value h := typical_schedule_nonneg h
  obtain ⟨hd1, hd2, hd3, hd4⟩ :=
    get_default_internal_loads_nonneg space.space_type
  intro c hc
  rcases hil0 : space.internal_load with _ | il <;>
    rcases hinf : (if st.include_infiltration then space.infiltration
      else none) with _ | inf <;>
    rcases hvent : (if st.include_ventilation then space.ventilation
      else none) with _ | vent <;>
    simp only [calculate_hourly_loads, hil0, hinf, hvent, List.mem_append,
      List.mem_cons, List.not_mem_nil, or_false, List.append_nil, if_true,
      or_assoc] at hc <;>
    rcases hc with rfl | rfl | rfl | rfl | rfl | rfl | rfl | rfl <;>
    constructor <;>
    first
    | exact le_rfl
    | exact le_max_left 0 _
    | (apply List.sum_nonneg
       intro x hx
       obtain ⟨s, hs, rfl⟩ := List.mem_map.mp hx
       split
       · exact le_max_left 0 _
       · exact le_rfl)
    | exact mul_nonneg (mul_nonneg hd1 hA) htyp
    | exact mul_nonneg (mul_nonneg hd2 hA) htyp
    | exact mul_nonneg (mul_nonneg hd3 hA) htyp
    | exact mul_nonneg (mul_nonneg hd4 hA) htyp
    | (obtain ⟨hpc, hppa, hact, hsf0, hsf1, hlpd, hepd, helf0, helf1⟩ :=
         hil il hil0
       have hnp : (0:ℚ) ≤ (if 0 < il.people_count then il.people_count
           else il.people_per_area * space.floor_area) := by
         split
         · exact hpc
         · exact mul_nonneg hppa hA
       first
       | exact mul_nonneg (mul_nonneg (mul_nonneg hnp hact) hsf0) (hsched _)
       | exact mul_nonneg (mul_nonneg (mul_nonneg hnp hact)
           (sub_nonneg.mpr hsf1)) (hsched _)
       | exact mul_nonneg (mul_nonneg hlpd hA) (hsched _)
       | exact mul_nonneg (mul_nonneg (mul_nonneg hepd hA) (hsched _)) helf0
       | (show (0:ℚ) ≤ il.equipment_power_density * space.floor_area
             * get_schedule_value il.equipment_schedule_id h building
             - il.equipment_power_density * space.floor_area
               * get_schedule_value il.equipment_schedule_id h building
               * il.equipment_latent_fraction
          nlinarith [mul_nonneg (mul_nonneg (mul_nonneg hepd hA)
            (hsched il.equipment_schedule_id)) (sub_nonneg.mpr helf1)]))

end Ashrae

namespace Ashrae

/-- C6: for every space satisfying the data-model invariants, the computed
peak load summary satisfies peak_total_cooling ≥ peak_sensible_cooling ≥ 0
and peak_total_cooling ≥ peak_latent_cooling ≥ 0, where the peaks are the
maxima of the hourly series and peak_latent_cooling is the latent value at
the peak-total hour. -/
theorem c6_space_peak_invariant (st : CalculationSettings)
    (o1 : ℕ → Surface → DesignDay → ℚ) (o2 : ℕ → DesignDay → ℚ)
    (space : Space) (building : Building)
    (hw : WellFormedSpace space building) :
    0 ≤ (calculate_space_loads st o1 o2 space building).peak_summary.peak_sensible_cooling
    ∧ (calculate_space_loads st o1 o2 space building).peak_summary.peak_sensible_cooling
      ≤ (calculate_space_loads st o1 o2 space building).peak_summary.peak_total_cooling
    ∧ 0 ≤ (calculate_space_loads st o1 o2 space building).peak_summary.peak_latent_cooling
    ∧ (calculate_space_loads st o1 o2 space building).peak_summary.peak_latent_cooling
      ≤ (calculate_space_loads st o1 o2 space building).peak_summary.peak_total_cooling := by
  obtain ⟨p1, p2, p3, -, -⟩ := space_result_peaks st o1 o2 space building
  have hs : ∀ hh : Fin 24, 0 ≤ spaceSens st o1 o2 space building hh := by
    intro hh
    simp only [spaceSens]
    apply List.sum_nonneg
    intro x hx
    obtain ⟨cc, hcc, rfl⟩ := List.mem_map.mp hx
    exact (hourly_components_nonneg st o1 o2 space building _ _ _ hw cc hcc).1
  have hl : ∀ hh : Fin 24, 0 ≤ spaceLat st o1 o2 space building hh := by
    intro hh
    simp only [spaceLat]
    apply List.sum_nonneg
    intro x hx
    obtain ⟨cc, hcc, rfl⟩ := List.mem_map.mp hx
    exact (hourly_components_nonneg st o1 o2 space building _ _ _ hw cc hcc).2
  refine ⟨?_, ?_, ?_, ?_⟩
  · rw [p1]
    exact (hs 0).trans (le_profMax _ 0)
  · rw [p1, p2]
    exact profMax_mono _ _ fun i => le_add_of_nonneg_right (hl i)
  · rw [p3]
    exact hl _
  · rw [p3, p2]
    have hpk := peak_hour_of_eq (fun hh => spaceSens st o1 o2 space building hh
      + spaceLat st o1 o2 space building hh)
    rw [← hpk]
    exact le_add_of_nonneg_left (hs _)

/-- Witness for C6 at the all-default trivial space and empty building. -/
theorem c6_witness :
    WellFormedSpace spaceTrivial buildingEmpty
    ∧ (0 ≤ (calculate_space_loads defaultSettings zeroSolarSurf zeroSolarInt
          spaceTrivial buildingEmpty).peak_summary.peak_sensible_cooling
      ∧ (calculate_space_loads defaultSettings zeroSolarSurf zeroSolarInt
          spaceTrivial buildingEmpty).peak_summary.peak_sensible_cooling
        ≤ (calculate_space_loads defaultSettings zeroSolarSurf zeroSolarInt
            spaceTrivial buildingEmpty).peak_summary.peak_total_cooling
      ∧ 0 ≤ (calculate_space_loads defaultSettings zeroSolarSurf zeroSolarInt
          spaceTrivial buildingEmpty).peak_summary.peak_latent_cooling
      ∧ (calculate_space_loads defaultSettings zeroSolarSurf zeroSolarInt
          spaceTrivial buildingEmpty).peak_summary.peak_latent_cooling
        ≤ (calculate_space_loads defaultSettings zeroSolarSurf zeroSolarInt
            spaceTrivial buildingEmpty).peak_summary.peak_total_cooling) := by
  have hw : WellFormedSpace spaceTrivial buildingEmpty := by
    refine ⟨le_rfl, le_rfl, ?_, ?_⟩
    · intro il hi
      simp [spaceTrivial] at hi
    · intro kv hkv
      simp [buildingEmpty] at hkv
  exact ⟨hw, c6_space_peak_invariant defaultSettings zeroSolarSurf
    zeroSolarInt spaceTrivial buildingEmpty hw⟩

end Ashrae

namespace Ashrae

/-- C9: whenever `calculate_project` succeeds, the building totals weight
each space's floor area and volume by its multiplier, while the total
cooling and heating loads sum the space peaks WITHOUT the multiplier — the
two totals are inconsistently weighted for any space with multiplier
greater than one (and the reported W/m² intensities divide one by the
other). -/
theorem c9_multiplier_weights_area_not_loads (st : CalculationSettings)
    (o1 : ℕ → Surface → DesignDay → ℚ) (o2 : ℕ → DesignDay → ℚ)
    (project : Project) (building : Building) (r : ProjectLoadResult)
    (hb : project.building = some building)
    (hok : calculate_project st o1 o2 project = .ok r) :
    r.total_floor_area
      = (building.spaces.map (fun s => s.floor_area * (s.multiplier : ℚ))).sum
    ∧ r.total_volume
      = (building.spaces.map (fun s => s.volume * (s.multiplier : ℚ))).sum
    ∧ r.total_cooling_load
      = (building.spaces.map (fun s =>
          (calculate_space_loads st o1 o2 s building).peak_summary.peak_total_cooling)).sum
    ∧ r.total_heating_load
      = (building.spaces.map (fun s =>
          (calculate_space_loads st o1 o2 s building).peak_summary.peak_sensible_heating)).sum := by
  simp only [calculate_project, hb] at hok
  split at hok
  · simp at hok
  · split at hok
    · simp at hok
    · injection hok with hr
      subst hr
      refine ⟨rfl, rfl, ?_, ?_⟩
      · show ((building.spaces.map (fun space => calculate_space_loads st o1 o2
            space building)).map (fun sr => sr.peak_summary.peak_total_cooling)).sum = _
        rw [List.map_map]
        rfl
      · show ((building.spaces.map (fun space => calculate_space_loads st o1 o2
            space building)).map (fun sr => sr.peak_summary.peak_sensible_heating)).sum = _
        rw [List.map_map]
        rfl

/-- Witness for C9 at the multiplier-2 space: floor area counted twice
(200 m²), loads once. -/
theorem c9_witness :
    r9.total_floor_area
      = (building9.spaces.map (fun s => s.floor_area * (s.multiplier : ℚ))).sum
    ∧ r9.total_volume
      = (building9.spaces.map (fun s => s.volume * (s.multiplier : ℚ))).sum
    ∧ r9.total_cooling_load
      = (building9.spaces.map (fun s =>
          (calculate_space_loads defaultSettings zeroSolarSurf zeroSolarInt s
            building9).peak_summary.peak_total_cooling)).sum
    ∧ r9.total_heating_load
      = (building9.spaces.map (fun s =>
          (calculate_space_loads defaultSettings zeroSolarSurf zeroSolarInt s
            building9).peak_summary.peak_sensible_heating)).sum :=
  c9_multiplier_weights_area_not_loads defaultSettings zeroSolarSurf
    zeroSolarInt project9 building9 r9 rfl (by with_unfolding_all rfl)

end Ashrae

namespace GemAI

theorem lookup_adjustment_eq (ws : List (ℕ × Side × ℚ)) (i : ℕ) (s : Side)
    (v : ℚ)
    (hnc : ∀ w1 ∈ ws, ∀ w2 ∈ ws, w1.1 = w2.1 → w1.2.1 = w2.2.1 →
      w1.2.2 = w2.2.2)
    (hmem : (i, s, v) ∈ ws) :
    lookup_adjustment ws i s = some v := by
  unfold lookup_adjustment
  have hmem2 : (i, s, v) ∈ ws.reverse := List.mem_reverse.mpr hmem
  have hsome : (ws.reverse.find?
      (fun e => decide (e.1 = i) && decide (e.2.1 = s))).isSome := by
    rw [List.find?_isSome]
    exact ⟨(i, s, v), hmem2, by simp⟩
  obtain ⟨w, hw⟩ := Option.isSome_iff_exists.mp hsome
  have hpred := List.find?_some hw
  simp only [Bool.and_eq_true, decide_eq_true_eq] at hpred
  have hwmem : w ∈ ws := List.mem_reverse.mp (List.mem_of_find?_eq_some hw)
  have hval : w.2.2 = v := hnc w hwmem (i, s, v) hmem hpred.1 hpred.2
  rw [hw]
  simp [hval]

theorem lookup_adjustment_eq_none (ws : List (ℕ × Side × ℚ)) (i : ℕ) (s : Side)
    (hno : ∀ w ∈ ws, ¬(w.1 = i ∧ w.2.1 = s)) :
    lookup_adjustment ws i s = none := by
  unfold lookup_adjustment
  have hfind : ws.reverse.find?
      (fun e => decide (e.1 = i) && decide (e.2.1 = s)) = none := by
    rw [List.find?_eq_none]
    intro x hx
    simp only [Bool.and_eq_true, decide_eq_true_eq]
    exact fun hk => hno x (List.mem_reverse.mp hx) hk
  rw [hfind]
  rfl

theorem snap_rect_right_edge (ws : List (ℕ × Side × ℚ)) (i : ℕ) (r : RectM)
    (v : ℚ) (h : lookup_adjustment ws i Side.right = some v) :
    (snap_rect ws i r).x + (snap_rect ws i r).width = v := by
  rcases hl : lookup_adjustment ws i Side.left with _ | nl <;>
    simp only [snap_rect, h, hl] <;> ring

theorem snap_rect_left_edge (ws : List (ℕ × Side × ℚ)) (i : ℕ) (r : RectM)
    (v : ℚ) (h : lookup_adjustment ws i Side.left = some v) :
    (snap_rect ws i r).x = v := by
  simp only [snap_rect, h]

theorem snap_rect_top_edge (ws : List (ℕ × Side × ℚ)) (i : ℕ) (r : RectM)
    (v : ℚ) (h : lookup_adjustment ws i Side.top = some v) :
    (snap_rect ws i r).y + (snap_rect ws i r).height = v := by
  rcases hb : lookup_adjustment ws i Side.bottom with _ | nb <;>
    simp only [snap_rect, h, hb] <;> ring

theorem snap_rect_bottom_edge (ws : List (ℕ × Side × ℚ)) (i : ℕ) (r : RectM)
    (v : ℚ) (h : lookup_adjustment ws i Side.bottom = some v) :
    (snap_rect ws i r).y = v := by
  simp only [snap_rect, h]

theorem eliminate_gaps_getD (rects : List RectM)
    (pairs : List (Direction × ℕ × ℕ × ℚ)) (i : ℕ) (hi : i < rects.length) :
    (eliminate_gaps rects pairs).getD i {}
      = snap_rect (adj_writes rects pairs) i (rects.getD i {}) := by
  have hg : rects.get? i = some (rects.get ⟨i, hi⟩) := List.get?_eq_get hi
  unfold eliminate_gaps
  rw [List.getD_eq_get?, List.getD_eq_get?, List.get?_map, List.get?_enum, hg]
  rfl

theorem mem_ite_singleton {α : Type} {c : Prop} [Decidable c] {t e : α}
    (h : e ∈ (if c then [t] else [])) : e = t := by
  split at h
  · exact List.mem_singleton.mp h
  · exact absurd h (List.not_mem_nil e)

theorem find_adjacent_pairs_indices (p : ExtractionParams)
    (rects : List RectM) :
    ∀ e ∈ find_adjacent_pairs p rects,
      e.2.1 < rects.length ∧ e.2.2.1 < rects.length := by
  intro e he
  unfold find_adjacent_pairs at he
  obtain ⟨ir, hir, he2⟩ := List.mem_flatMap.mp he
  obtain ⟨jr, hjr, he3⟩ := List.mem_flatMap.mp he2
  have hi : ir.1 < rects.length := by
    have := List.mem_enum_iff_get?.mp hir
    exact (List.get?_eq_some.mp this).1
  have hj : jr.1 < rects.length := by
    have := List.mem_enum_iff_get?.mp hjr
    exact (List.get?_eq_some.mp this).1
  split at he3
  · exact absurd he3 (List.not_mem_nil e)
  · simp only [pair_checks, List.mem_append] at he3
    rcases he3 with ((h | h) | h) | h <;>
      · have ht := mem_ite_singleton h
        subst ht
        exact ⟨hi, hj⟩

end GemAI

namespace GemAI

/-- C8 (amended): when no two adjustment writes target the same (room,
edge) key with different shared positions — i.e. no room edge is claimed
by two different adjacencies — every adjacent pair's facing edges coincide
exactly after gap elimination (so certainly within 1e-6), and the result
does not depend on the order of the adjacency list.  Without that
proviso the last write wins and both properties fail (see the
counterexample). -/
theorem c8_gap_elimination_snaps (p : ExtractionParams) (rects : List RectM)
    (hnc : ∀ w1 ∈ adj_writes rects (find_adjacent_pairs p rects),
      ∀ w2 ∈ adj_writes rects (find_adjacent_pairs p rects),
      w1.1 = w2.1 → w1.2.1 = w2.2.1 → w1.2.2 = w2.2.2) :
    (∀ e ∈ find_adjacent_pairs p rects,
      (e.1 = Direction.H →
        |((eliminate_gaps rects (find_adjacent_pairs p rects)).getD e.2.1 {}).x
            + ((eliminate_gaps rects (find_adjacent_pairs p rects)).getD e.2.1 {}).width
            - ((eliminate_gaps rects (find_adjacent_pairs p rects)).getD e.2.2.1 {}).x|
          ≤ 1/1000000
        ∨ |((eliminate_gaps rects (find_adjacent_pairs p rects)).getD e.2.2.1 {}).x
            + ((eliminate_gaps rects (find_adjacent_pairs p rects)).getD e.2.2.1 {}).width
            - ((eliminate_gaps rects (find_adjacent_pairs p rects)).getD e.2.1 {}).x|
          ≤ 1/1000000)
      ∧ (e.1 = Direction.V →
        |((eliminate_gaps rects (find_adjacent_pairs p rects)).getD e.2.1 {}).y
            + ((eliminate_gaps rects (find_adjacent_pairs p rects)).getD e.2.1 {}).height
            - ((eliminate_gaps rects (find_adjacent_pairs p rects)).getD e.2.2.1 {}).y|
          ≤ 1/1000000
        ∨ |((eliminate_gaps rects (find_adjacent_pairs p rects)).getD e.2.2.1 {}).y
            + ((eliminate_gaps rects (find_adjacent_pairs p rects)).getD e.2.2.1 {}).height
            - ((eliminate_gaps rects (find_adjacent_pairs p rects)).getD e.2.1 {}).y|
          ≤ 1/1000000))
    ∧ ∀ pairs2, pairs2.Perm (find_adjacent_pairs p rects) →
        eliminate_gaps rects pairs2
          = eliminate_gaps rects (find_adjacent_pairs p rects) := by
  constructor
  · intro e he
    obtain ⟨hi, hj⟩ := find_adjacent_pairs_indices p rects e he
    obtain ⟨d, i, j, m⟩ := e
    simp only at hi hj
    constructor
    · intro hd
      subst hd
      rw [eliminate_gaps_getD rects _ i hi, eliminate_gaps_getD rects _ j hj]
      by_cases hx : (rects.getD i {}).x < (rects.getD j {}).x
      · have hw1 : (i, Side.right, m)
            ∈ adj_writes rects (find_adjacent_pairs p rects) :=
          List.mem_flatMap.mpr ⟨(Direction.H, i, j, m), he,
            by simp only [writes_of]; rw [if_pos hx]; simp⟩
        have hw2 : (j, Side.left, m)
            ∈ adj_writes rects (find_adjacent_pairs p rects) :=
          List.mem_flatMap.mpr ⟨(Direction.H, i, j, m), he,
            by simp only [writes_of]; rw [if_pos hx]; simp⟩
        have l1 := lookup_adjustment_eq _ _ _ _ hnc hw1
        have l2 := lookup_adjustment_eq _ _ _ _ hnc hw2
        left
        rw [snap_rect_right_edge _ _ _ _ l1, snap_rect_left_edge _ _ _ _ l2]
        simp
      · have hw1 : (i, Side.left, m)
            ∈ adj_writes rects (find_adjacent_pairs p rects) :=
          List.mem_flatMap.mpr ⟨(Direction.H, i, j, m), he,
            by simp only [writes_of]; rw [if_neg hx]; simp⟩
        have hw2 : (j, Side.right, m)
            ∈ adj_writes rects (find_adjacent_pairs p rects) :=
          List.mem_flatMap.mpr ⟨(Direction.H, i, j, m), he,
            by simp only [writes_of]; rw [if_neg hx]; simp⟩
        have l1 := lookup_adjustment_eq _ _ _ _ hnc hw1
        have l2 := lookup_adjustment_eq _ _ _ _ hnc hw2
        right
        rw [snap_rect_right_edge _ _ _ _ l2, snap_rect_left_edge _ _ _ _ l1]
        simp
    · intro hd
      subst hd
      rw [eliminate_gaps_getD rects _ i hi, eliminate_gaps_getD rects _ j hj]
      by_cases hy : (rects.getD i {}).y < (rects.getD j {}).y
      · have hw1 : (i, Side.top, m)
            ∈ adj_writes rects (find_adjacent_pairs p rects) :=
          List.mem_flatMap.mpr ⟨(Direction.V, i, j, m), he,
            by simp only [writes_of]; rw [if_pos hy]; simp⟩
        have hw2 : (j, Side.bottom, m)
            ∈ adj_writes rects (find_adjacent_pairs p rects) :=
          List.mem_flatMap.mpr ⟨(Direction.V, i, j, m), he,
            by simp only [writes_of]; rw [if_pos hy]; simp⟩
        have l1 := lookup_adjustment_eq _ _ _ _ hnc hw1
        have l2 := lookup_adjustment_eq _ _ _ _ hnc hw2
        left
        rw [snap_rect_top_edge _ _ _ _ l1, snap_rect_bottom_edge _ _ _ _ l2]
        simp
      · have hw1 : (i, Side.bottom, m)
            ∈ adj_writes rects (find_adjacent_pairs p rects) :=
          List.mem_flatMap.mpr ⟨(Direction.V, i, j, m), he,
            by simp only [writes_of]; rw [if_neg hy]; simp⟩
        have hw2 : (j, Side.top, m)
            ∈ adj_writes rects (find_adjacent_pairs p rects) :=
          List.mem_flatMap.mpr ⟨(Direction.V, i, j, m), he,
            by simp only [writes_of]; rw [if_neg hy]; simp⟩
        have l1 := lookup_adjustment_eq _ _ _ _ hnc hw1
        have l2 := lookup_adjustment_eq _ _ _ _ hnc hw2
        right
        rw [snap_rect_top_edge _ _ _ _ l2, snap_rect_bottom_edge _ _ _ _ l1]
        simp
  · intro pairs2 hperm
    have hws : (adj_writes rects pairs2).Perm
        (adj_writes rects (find_adjacent_pairs p rects)) :=
      List.Perm.flatMap_right _ hperm
    have hnc2 : ∀ w1 ∈ adj_writes rects pairs2, ∀ w2 ∈ adj_writes rects pairs2,
        w1.1 = w2.1 → w1.2.1 = w2.2.1 → w1.2.2 = w2.2.2 := by
      intro w1 h1 w2 h2
      exact hnc w1 (hws.mem_iff.mp h1) w2 (hws.mem_iff.mp h2)
    have hlook : ∀ i s, lookup_adjustment (adj_writes rects pairs2) i s
        = lookup_adjustment (adj_writes rects (find_adjacent_pairs p rects)) i s := by
      intro i s
      by_cases hex : ∃ w ∈ adj_writes rects (find_adjacent_pairs p rects),
          w.1 = i ∧ w.2.1 = s
      · obtain ⟨w, hwmem, hk1, hk2⟩ := hex
        subst hk1
        subst hk2
        have hweta : (w.1, w.2.1, w.2.2) ∈ adj_writes rects
            (find_adjacent_pairs p rects) := by simpa using hwmem
        have hv1 := lookup_adjustment_eq _ _ _ _ hnc hweta
        have hweta2 : (w.1, w.2.1, w.2.2) ∈ adj_writes rects pairs2 := by
          simpa using hws.mem_iff.mpr hwmem
        have hv2 := lookup_adjustment_eq _ _ _ _ hnc2 hweta2
        rw [hv1, hv2]
      · push_neg at hex
        have hno : ∀ w ∈ adj_writes rects (find_adjacent_pairs p rects),
            ¬(w.1 = i ∧ w.2.1 = s) := by
          intro w hw hk
          exact hex w hw hk.1 hk.2
        have hno2 : ∀ w ∈ adj_writes rects pairs2, ¬(w.1 = i ∧ w.2.1 = s) := by
          intro w hw
          exact hno w (hws.mem_iff.mp hw)
        rw [lookup_adjustment_eq_none _ _ _ hno,
          lookup_adjustment_eq_none _ _ _ hno2]
    have hsnap : ∀ i r, snap_rect (adj_writes rects pairs2) i r
        = snap_rect (adj_writes rects (find_adjacent_pairs p rects)) i r := by
      intro i r
      simp only [snap_rect, hlook]
    unfold eliminate_gaps
    exact congrArg (fun f => List.map f rects.enum)
      (funext fun ir => hsnap ir.1 ir.2)

end GemAI

namespace GemAI

/-- C8 witness: on the two-room layout `rects2` (a clean 0.3 m gap, one
horizontal adjacency, no conflicting writes) the no-conflict hypothesis
holds and the snapped facing edges coincide. -/
theorem c8_witness :
    (∀ w1 ∈ adj_writes rects2 (find_adjacent_pairs defaultParams rects2),
      ∀ w2 ∈ adj_writes rects2 (find_adjacent_pairs defaultParams rects2),
      w1.1 = w2.1 → w1.2.1 = w2.2.1 → w1.2.2 = w2.2.2)
    ∧ (|((eliminate_gaps rects2 (find_adjacent_pairs defaultParams rects2)).getD 0 {}).x
          + ((eliminate_gaps rects2 (find_adjacent_pairs defaultParams rects2)).getD 0 {}).width
          - ((eliminate_gaps rects2 (find_adjacent_pairs defaultParams rects2)).getD 1 {}).x|
        ≤ 1/1000000
      ∨ |((eliminate_gaps rects2 (find_adjacent_pairs defaultParams rects2)).getD 1 {}).x
          + ((eliminate_gaps rects2 (find_adjacent_pairs defaultParams rects2)).getD 1 {}).width
          - ((eliminate_gaps rects2 (find_adjacent_pairs defaultParams rects2)).getD 0 {}).x|
        ≤ 1/1000000) := by
  have hpairs : find_adjacent_pairs defaultParams rects2
      = [(Direction.H, 0, 1, 203/20)] := by
    norm_num [find_adjacent_pairs, pair_checks, rects2, rectD, rectE,
      defaultParams, List.enum, List.enumFrom, List.flatMap, abs,
      max_def, min_def]
  have hws : adj_writes rects2 (find_adjacent_pairs defaultParams rects2)
      = [(0, Side.right, 203/20), (1, Side.left, 203/20)] := by
    rw [hpairs]
    norm_num [adj_writes, writes_of, List.flatMap, rects2, rectD, rectE]
  have hnc : ∀ w1 ∈ adj_writes rects2 (find_adjacent_pairs defaultParams rects2),
      ∀ w2 ∈ adj_writes rects2 (find_adjacent_pairs defaultParams rects2),
      w1.1 = w2.1 → w1.2.1 = w2.2.1 → w1.2.2 = w2.2.2 := by
    simp only [hws, List.mem_cons, List.not_mem_nil, or_false]
    intro w1 h1 w2 h2 hk1 hk2
    rcases h1 with rfl | rfl <;> rcases h2 with rfl | rfl <;> rfl
  have he0 : (Direction.H, 0, 1, (203:ℚ)/20)
      ∈ find_adjacent_pairs defaultParams rects2 := by
    rw [hpairs]
    exact List.mem_singleton.mpr rfl
  exact ⟨hnc,
    ((c8_gap_elimination_snaps defaultParams rects2 hnc).1 _ he0).1 rfl⟩

set_option maxRecDepth 8000 in
/-- C8 counterexample: on `rects3` the adjacency rule marks `(0, 1)`
horizontally adjacent, but after gap elimination the facing edges of
rooms 0 and 1 differ by 0.1 m (room 0's right edge was overwritten by the
later `(0, 2)` adjacency), far above the 1e-6 tolerance; and applying the
same adjacency list in reverse order yields a different result, so the
outcome does depend on the order of the snaps. -/
theorem c8_counterexample :
    find_adjacent_pairs defaultParams rects3
      = [(Direction.H, 0, 1, 101/10), (Direction.H, 0, 2, 51/5)]
    ∧ ¬(|((eliminate_gaps rects3 (find_adjacent_pairs defaultParams rects3)).getD 0 {}).x
          + ((eliminate_gaps rects3 (find_adjacent_pairs defaultParams rects3)).getD 0 {}).width
          - ((eliminate_gaps rects3 (find_adjacent_pairs defaultParams rects3)).getD 1 {}).x|
        ≤ 1/1000000
      ∨ |((eliminate_gaps rects3 (find_adjacent_pairs defaultParams rects3)).getD 1 {}).x
          + ((eliminate_gaps rects3 (find_adjacent_pairs defaultParams rects3)).getD 1 {}).width
          - ((eliminate_gaps rects3 (find_adjacent_pairs defaultParams rects3)).getD 0 {}).x|
        ≤ 1/1000000)
    ∧ (find_adjacent_pairs defaultParams rects3).reverse.Perm
        (find_adjacent_pairs defaultParams rects3)
    ∧ eliminate_gaps rects3 (find_adjacent_pairs defaultParams rects3).reverse
        ≠ eliminate_gaps rects3 (find_adjacent_pairs defaultParams rects3) := by
  have hpairs : find_adjacent_pairs defaultParams rects3
      = [(Direction.H, 0, 1, 101/10), (Direction.H, 0, 2, 51/5)] := by
    norm_num [find_adjacent_pairs, pair_checks, rects3, rectA, rectB, rectC,
      defaultParams, List.enum, List.enumFrom, List.flatMap, abs,
      max_def, min_def]
  have dLR : decide (Side.left = Side.right) = false := rfl
  have dRL : decide (Side.right = Side.left) = false := rfl
  have dLL : decide (Side.left = Side.left) = true := rfl
  have dRR : decide (Side.right = Side.right) = true := rfl
  refine ⟨hpairs, ?_, List.reverse_perm _, ?_⟩
  · rw [hpairs]
    norm_num [eliminate_gaps, adj_writes, writes_of, lookup_adjustment,
      snap_rect, List.flatMap, List.enum, List.enumFrom, List.find?,
      rects3, rectA, rectB, rectC, dLR, dRL, dLL, dRR, abs, max_def, min_def]
  · rw [hpairs]
    intro heq
    have h0 := congrArg (fun l => ((l.getD 0 {}).width : ℚ)) heq
    norm_num [eliminate_gaps, adj_writes, writes_of, lookup_adjustment,
      snap_rect, List.flatMap, List.enum, List.enumFrom, List.find?,
      List.reverse, List.reverseAux, rects3, rectA, rectB, rectC,
      dLR, dRL, dLL, dRR] at h0

end GemAI
